import Mathlib

/-!
Shallow embedding of the easy-modbus frame model and codec (Rust crate
`easy-modbus`): the typed request/response model and the frame builder from
`src/frame/mod.rs`, `src/frame/request.rs`, `src/frame/response.rs`, and the
four codecs from `src/codec/encoder.rs` and `src/codec/decoder.rs`.

Bytes are modelled as `Nat` (each in-range value < 256 on the wire);
u8/u16 overflow is made explicit with `% 256` / `% 65536` exactly where the
Rust source performs an `as` cast or a wrapping operation.  Fallible Rust
paths (`Result`, `Option`, panics from `bytes` buffer over-reads and
`unwrap`) are explicit in the `Outcome` type of the decoders.
-/

set_option maxRecDepth 4000

namespace EasyModbus

/-- Protocol versions (`src/frame/mod.rs`, enum `Version`). -/
inductive Version where
  | Tcp
  | Rtu
deriving DecidableEq, Repr

/-- Modbus functions (`src/frame/mod.rs`, enum `Function`). -/
inductive Function where
  | ReadCoils
  | ReadDiscreteInputs
  | ReadMultipleHoldingRegisters
  | ReadInputRegisters
  | WriteSingleCoil
  | WriteSingleHoldingRegister
  | WriteMultipleCoils
  | WriteMultipleHoldingRegisters
deriving DecidableEq, Repr

/-- Exception types (`src/frame/mod.rs`, enum `Exception`). -/
inductive Exception where
  | IllegalFunction
  | IllegalDataAddress
  | IllegalDataValue
  | SlaveDeviceFailure
  | Acknowledge
deriving DecidableEq, Repr

/-- `Function::to_code` (`src/frame/mod.rs`). -/
def Function.to_code : Function → Nat
  | .ReadCoils => 0x01
  | .ReadDiscreteInputs => 0x02
  | .ReadMultipleHoldingRegisters => 0x03
  | .ReadInputRegisters => 0x04
  | .WriteSingleCoil => 0x05
  | .WriteSingleHoldingRegister => 0x06
  | .WriteMultipleCoils => 0x0F
  | .WriteMultipleHoldingRegisters => 0x10

/-- `Exception::to_code` (`src/frame/mod.rs`). -/
def Exception.to_code : Exception → Nat
  | .IllegalFunction => 0x01
  | .IllegalDataAddress => 0x02
  | .IllegalDataValue => 0x03
  | .SlaveDeviceFailure => 0x04
  | .Acknowledge => 0x05

/-- `Exception::from_code` (`src/frame/mod.rs`).  Note that the source maps
wire byte `0x01` to `IllegalDataValue`, not to `IllegalFunction`. -/
def Exception.from_code : Nat → Option Exception
  | 0x01 => some .IllegalDataValue
  | 0x02 => some .IllegalDataAddress
  | 0x03 => some .IllegalDataValue
  | 0x04 => some .SlaveDeviceFailure
  | 0x05 => some .Acknowledge
  | _ => none

/-- Frame head (`src/frame/mod.rs`, struct `Head`; the encoder snapshot calls
the `version` field `protocol`, with the same two inhabitants). -/
structure Head where
  tid : Nat
  pid : Nat
  length : Nat
  uid : Nat
  function : Function
  version : Version
  is_exception : Bool
deriving DecidableEq, Repr

/-- `Head::new` (`src/frame/mod.rs`): `length` is set to `body_length + 2`
(u16 arithmetic). -/
def Head.new (tid : Nat) (uid : Nat) (function : Function) (body_length : Nat)
    (version : Version) (is_exception : Bool) : Head :=
  { tid := tid
    pid := 0x00
    length := (body_length + 2) % 65536
    uid := uid
    function := function
    version := version
    is_exception := is_exception }

/-- `Head::body_length` (`src/frame/mod.rs`): back-fills `length` as
`body_length + 2` (u16 arithmetic; the decoders call it with `len as u16`). -/
def Head.body_length (h : Head) (body_length : Nat) : Head :=
  { h with length := (body_length % 65536 + 2) % 65536 }

end EasyModbus

namespace EasyModbus

/-! ## CRC16 engine

`lib.rs` re-exports `util::crc_util` and the codecs call `crc::check` /
`crc_util::compute_crc`, but the `util` module itself is not present in the
repository sources; it is modelled from the spec here. -/

/-- One LSB-first shift step of the Modbus CRC register: if the low bit is
set, shift right and XOR with the reflected polynomial 0xA001, else just
shift.  Modelled from the spec: the `util::crc` module is missing from the
sources; §4.1 specifies initial register 0xFFFF, reflected polynomial 0xA001,
processed least-significant-bit first, no final XOR. -/
def crcStepBit (s : Nat) : Nat :=
  if s % 2 == 1 then (s / 2) ^^^ 0xA001 else s / 2

/-- Fold one input byte into the CRC register (XOR in the byte, then eight
LSB-first shift steps).  Modelled from the spec (§4.1), see `crcStepBit`. -/
def crcStepByte (s b : Nat) : Nat :=
  (List.range 8).foldl (fun t _ => crcStepBit t) (s ^^^ b % 256)

/-- The raw Modbus CRC16 register value over a byte sequence.  Modelled from
the spec (§4.1); on the spec's own vector `[0x0B,0x01,0x00,0x1D,0x00,0x1F]`
it yields 0x6EED. -/
def crcReg (data : List Nat) : Nat :=
  data.foldl crcStepByte 0xFFFF

namespace crc

/-- `crc::compute` / `crc_util::compute_crc`.  Modelled from the spec: the
`util` module is missing from the sources.  Spec §4.4/§8 mandates that the
two trailer bytes appear low byte first on the wire, and every in-src caller
writes/reads the value with big-endian `put_u16`/`get_u16` (tests:
register value 0x6EED appears as wire bytes `0xED 0x6E`), so `compute`
returns the 16-bit value packed low byte first. -/
def compute (data : List Nat) : Nat :=
  let r := crcReg data
  r % 256 * 256 + r / 256 % 256

/-- `crc::check`.  Modelled from the spec (§4.1): true iff
`compute(bytes) == candidate`. -/
def check (data : List Nat) (candidate : Nat) : Bool :=
  compute data == candidate

end crc

example : crcReg [0x0B, 0x01, 0x00, 0x1D, 0x00, 0x1F] = 0x6EED := by decide
example : crc.compute [0x0B, 0x01, 0x00, 0x1D, 0x00, 0x1F] = 0xED6E := by decide
example : crc.compute [0x0A, 0x81, 0x02] = 0xB053 := by decide

/-! ## Request bodies (`src/frame/request.rs`) -/

/-- Function code 0x01 request body. -/
structure ReadCoilsRequest where
  first_address : Nat
  coils_number : Nat
deriving DecidableEq, Repr

/-- Function code 0x02 request body. -/
structure ReadDiscreteInputsRequest where
  first_address : Nat
  discrete_inputs_number : Nat
deriving DecidableEq, Repr

/-- Function code 0x03 request body. -/
structure ReadMultipleHoldingRegistersRequest where
  first_address : Nat
  registers_number : Nat
deriving DecidableEq, Repr

/-- Function code 0x04 request body. -/
structure ReadInputRegistersRequest where
  first_address : Nat
  registers_number : Nat
deriving DecidableEq, Repr

/-- Function code 0x05 request body. -/
structure WriteSingleCoilRequest where
  coil_address : Nat
  value : Nat
deriving DecidableEq, Repr

/-- Function code 0x06 request body. -/
structure WriteSingleHoldingRegisterRequest where
  register_address : Nat
  value : Nat
deriving DecidableEq, Repr

/-- Function code 0x0F request body. -/
structure WriteMultipleCoilsRequest where
  first_address : Nat
  coils_number : Nat
  bytes_number : Nat
  values : List Nat
deriving DecidableEq, Repr

/-- Function code 0x10 request body. -/
structure WriteMultipleHoldingRegistersRequest where
  first_address : Nat
  registers_number : Nat
  bytes_number : Nat
  values : List Nat
deriving DecidableEq, Repr

/-- `WriteMultipleCoilsRequest::new` (`src/frame/request.rs`):
`bytes_number` is `values.len() as u8`. -/
def WriteMultipleCoilsRequest.new (first_address coils_number : Nat)
    (values : List Nat) : WriteMultipleCoilsRequest :=
  { first_address := first_address
    coils_number := coils_number
    bytes_number := values.length % 256
    values := values }

/-- `WriteMultipleHoldingRegistersRequest::new` (`src/frame/request.rs`):
`registers_number` is `values.len() as u16 / 2` and `bytes_number` is
`values.len() as u8`; the caller supplies no register count. -/
def WriteMultipleHoldingRegistersRequest.new (first_address : Nat)
    (values : List Nat) : WriteMultipleHoldingRegistersRequest :=
  { first_address := first_address
    registers_number := values.length % 65536 / 2
    bytes_number := values.length % 256
    values := values }

/-- `Length::len` for `ReadCoilsRequest` (4 bytes); the other three read
requests and the two write-single requests have the same constant. -/
def ReadCoilsRequest.len (_ : ReadCoilsRequest) : Nat := 4

def ReadDiscreteInputsRequest.len (_ : ReadDiscreteInputsRequest) : Nat := 4

def ReadMultipleHoldingRegistersRequest.len
    (_ : ReadMultipleHoldingRegistersRequest) : Nat := 4

def ReadInputRegistersRequest.len (_ : ReadInputRegistersRequest) : Nat := 4

def WriteSingleCoilRequest.len (_ : WriteSingleCoilRequest) : Nat := 4

def WriteSingleHoldingRegisterRequest.len
    (_ : WriteSingleHoldingRegisterRequest) : Nat := 4

/-- `Length::len` for `WriteMultipleCoilsRequest`:
`5 + self.values.len() as u16` (u16 arithmetic). -/
def WriteMultipleCoilsRequest.len (b : WriteMultipleCoilsRequest) : Nat :=
  (5 + b.values.length % 65536) % 65536

/-- `Length::len` for `WriteMultipleHoldingRegistersRequest`:
`5 + self.values.len() as u16` (u16 arithmetic). -/
def WriteMultipleHoldingRegistersRequest.len
    (b : WriteMultipleHoldingRegistersRequest) : Nat :=
  (5 + b.values.length % 65536) % 65536

/-! ## Response bodies (`src/frame/response.rs`)

The `response.rs` file in the sources is an older snapshot of the module: it
lacks the `Exception` variant and the `ExceptionResponse` struct that
`frame/mod.rs`, `codec/encoder.rs` and `codec/decoder.rs` all use, and its
`ReadDiscreteInputsResponse::new` takes two arguments while the frame builder
calls it with one.  The structs and their one-argument constructors called by
the builder are embedded below; the two missing items are modelled from the
spec where noted. -/

/-- Function code 0x01 response body. -/
structure ReadCoilsResponse where
  bytes_number : Nat
  values : List Nat
deriving DecidableEq, Repr

/-- Function code 0x02 response body. -/
structure ReadDiscreteInputsResponse where
  bytes_number : Nat
  values : List Nat
deriving DecidableEq, Repr

/-- Function code 0x03 response body. -/
structure ReadMultipleHoldingRegistersResponse where
  bytes_number : Nat
  values : List Nat
deriving DecidableEq, Repr

/-- Function code 0x04 response body. -/
structure ReadInputRegistersResponse where
  bytes_number : Nat
  values : List Nat
deriving DecidableEq, Repr

/-- Function code 0x05 response body. -/
structure WriteSingleCoilResponse where
  coil_address : Nat
  value : Nat
deriving DecidableEq, Repr

/-- Function code 0x06 response body. -/
structure WriteSingleHoldingRegisterResponse where
  register_address : Nat
  value : Nat
deriving DecidableEq, Repr

/-- Function code 0x0F response body. -/
structure WriteMultipleCoilsResponse where
  first_address : Nat
  coils_number : Nat
deriving DecidableEq, Repr

/-- Function code 0x10 response body. -/
structure WriteMultipleHoldingRegistersResponse where
  first_address : Nat
  registers_number : Nat
deriving DecidableEq, Repr

/-- Exception response body.  Modelled from the spec: the struct definition
is absent from the `response.rs` snapshot in the sources, but its field name
`exception` and one-byte body are fixed by its in-src uses
(`codec/decoder.rs` `From<Bytes> for ExceptionResponse`, `codec/encoder.rs`
`From<ExceptionResponse> for BytesMut`) and spec §3 (`exception_code:u8`,
1 byte). -/
structure ExceptionResponse where
  exception : Exception
deriving DecidableEq, Repr

/-- `ReadCoilsResponse::new`: `bytes_number` is `values.len() as u8`. -/
def ReadCoilsResponse.new (values : List Nat) : ReadCoilsResponse :=
  { bytes_number := values.length % 256, values := values }

/-- One-argument `ReadDiscreteInputsResponse::new` as called by the frame
builder.  Modelled from the spec: the snapshot in `response.rs` holds a
stale two-argument constructor (deriving `bytes_number` from
`inputs_number / 8`) that the builder does not call; spec §3 fixes
`byte_count == values.len()` for every read response body. -/
def ReadDiscreteInputsResponse.new (values : List Nat) :
    ReadDiscreteInputsResponse :=
  { bytes_number := values.length % 256, values := values }

/-- `ReadMultipleHoldingRegistersResponse::new`:
`bytes_number` is `values.len() as u8`. -/
def ReadMultipleHoldingRegistersResponse.new (values : List Nat) :
    ReadMultipleHoldingRegistersResponse :=
  { bytes_number := values.length % 256, values := values }

/-- `ReadInputRegistersResponse::new`: `bytes_number` is `values.len() as u8`. -/
def ReadInputRegistersResponse.new (values : List Nat) :
    ReadInputRegistersResponse :=
  { bytes_number := values.length % 256, values := values }

def WriteSingleCoilResponse.new (coil_address value : Nat) :
    WriteSingleCoilResponse :=
  { coil_address := coil_address, value := value }

def WriteSingleHoldingRegisterResponse.new (register_address value : Nat) :
    WriteSingleHoldingRegisterResponse :=
  { register_address := register_address, value := value }

def WriteMultipleCoilsResponse.new (first_address coils_number : Nat) :
    WriteMultipleCoilsResponse :=
  { first_address := first_address, coils_number := coils_number }

def WriteMultipleHoldingRegistersResponse.new
    (first_address registers_number : Nat) :
    WriteMultipleHoldingRegistersResponse :=
  { first_address := first_address, registers_number := registers_number }

/-- `ExceptionResponse::new`.  Modelled from the spec: absent from the
`response.rs` snapshot; called by `Frame::exception_response` with the
`Exception` value. -/
def ExceptionResponse.new (exception : Exception) : ExceptionResponse :=
  { exception := exception }

/-- `Length::len` for the read responses: `1 + values.len() as u16`
(u16 arithmetic). -/
def ReadCoilsResponse.len (b : ReadCoilsResponse) : Nat :=
  (1 + b.values.length % 65536) % 65536

def ReadDiscreteInputsResponse.len (b : ReadDiscreteInputsResponse) : Nat :=
  (1 + b.values.length % 65536) % 65536

def ReadMultipleHoldingRegistersResponse.len
    (b : ReadMultipleHoldingRegistersResponse) : Nat :=
  (1 + b.values.length % 65536) % 65536

def ReadInputRegistersResponse.len (b : ReadInputRegistersResponse) : Nat :=
  (1 + b.values.length % 65536) % 65536

def WriteSingleCoilResponse.len (_ : WriteSingleCoilResponse) : Nat := 4

def WriteSingleHoldingRegisterResponse.len
    (_ : WriteSingleHoldingRegisterResponse) : Nat := 4

def WriteMultipleCoilsResponse.len (_ : WriteMultipleCoilsResponse) : Nat := 4

def WriteMultipleHoldingRegistersResponse.len
    (_ : WriteMultipleHoldingRegistersResponse) : Nat := 4

/-- `Length::len` for `ExceptionResponse` (one exception-code byte).
Modelled from the spec (§3: `exception_code:u8` → 1 byte); the struct is
absent from the `response.rs` snapshot. -/
def ExceptionResponse.len (_ : ExceptionResponse) : Nat := 1

/-- Modbus request (`src/frame/request.rs`, enum `Request`). -/
inductive Request where
  | ReadCoils (h : Head) (b : ReadCoilsRequest)
  | ReadDiscreteInputs (h : Head) (b : ReadDiscreteInputsRequest)
  | ReadMultipleHoldingRegisters (h : Head) (b : ReadMultipleHoldingRegistersRequest)
  | ReadInputRegisters (h : Head) (b : ReadInputRegistersRequest)
  | WriteSingleCoil (h : Head) (b : WriteSingleCoilRequest)
  | WriteSingleHoldingRegister (h : Head) (b : WriteSingleHoldingRegisterRequest)
  | WriteMultipleCoils (h : Head) (b : WriteMultipleCoilsRequest)
  | WriteMultipleHoldingRegisters (h : Head) (b : WriteMultipleHoldingRegistersRequest)
deriving DecidableEq, Repr

/-- Modbus response (`src/frame/response.rs`, enum `Response`, plus the
`Exception` variant used by `frame/mod.rs`, `codec/encoder.rs` and
`codec/decoder.rs`; the variant is missing from the stale `response.rs`
snapshot). -/
inductive Response where
  | ReadCoils (h : Head) (b : ReadCoilsResponse)
  | ReadDiscreteInputs (h : Head) (b : ReadDiscreteInputsResponse)
  | ReadMultipleHoldingRegisters (h : Head) (b : ReadMultipleHoldingRegistersResponse)
  | ReadInputRegisters (h : Head) (b : ReadInputRegistersResponse)
  | WriteSingleCoil (h : Head) (b : WriteSingleCoilResponse)
  | WriteSingleHoldingRegister (h : Head) (b : WriteSingleHoldingRegisterResponse)
  | WriteMultipleCoils (h : Head) (b : WriteMultipleCoilsResponse)
  | WriteMultipleHoldingRegisters (h : Head) (b : WriteMultipleHoldingRegistersResponse)
  | Exception (h : Head) (b : ExceptionResponse)
deriving DecidableEq, Repr

/-! ## Frame builder (`src/frame/mod.rs`)

The Rust builder mutates its `tid_map` behind a `Mutex` through `&self`;
the embedding passes the state explicitly: every builder method returns the
constructed value together with the updated builder. -/

/-- The transaction-id table: unit id to last issued transaction id. -/
def TidMap := Nat → Option Nat

/-- Modbus frame builder (`src/frame/mod.rs`, struct `Frame`). -/
structure Frame where
  version : Version
  tid_map : TidMap

/-- `Frame::tcp`. -/
def Frame.tcp : Frame := ⟨Version.Tcp, fun _ => none⟩

/-- `Frame::rtu`. -/
def Frame.rtu : Frame := ⟨Version.Rtu, fun _ => none⟩

/-- `Frame::get_tid` (`src/frame/mod.rs`): RTU always yields 0 without
touching the table; TCP yields 1 for a fresh unit id, `previous + 1` below
0xFFFF, and wraps from 0xFFFF back to 1, recording the issued id. -/
def Frame.get_tid (f : Frame) (unit_id : Nat) : Nat × Frame :=
  if f.version = Version.Rtu then (0, f)
  else
    let value : Nat :=
      match f.tid_map unit_id with
      | none => 1
      | some v => if v < 0xFFFF then v + 1 else 1
    (value, ⟨f.version, fun k => if k = unit_id then some value else f.tid_map k⟩)

/-- `Frame::head` (`src/frame/mod.rs`). -/
def Frame.head (f : Frame) (uid : Nat) (function : Function)
    (body_length : Nat) (is_exception : Bool) : Head × Frame :=
  let (tid, f') := f.get_tid uid
  (Head.new tid uid function body_length f.version is_exception, f')

/-- `Frame::read_coils_request`. -/
def Frame.read_coils_request (f : Frame) (unit_id first_address number : Nat) :
    Request × Frame :=
  let request_body : ReadCoilsRequest := ⟨first_address, number⟩
  let (head, f') := f.head unit_id Function.ReadCoils request_body.len false
  (Request.ReadCoils head request_body, f')

/-- `Frame::read_discrete_request`. -/
def Frame.read_discrete_request (f : Frame) (unit_id first_address number : Nat) :
    Request × Frame :=
  let request_body : ReadDiscreteInputsRequest := ⟨first_address, number⟩
  let (head, f') := f.head unit_id Function.ReadDiscreteInputs request_body.len false
  (Request.ReadDiscreteInputs head request_body, f')

/-- `Frame::read_multiple_holding_registers_request`. -/
def Frame.read_multiple_holding_registers_request (f : Frame)
    (unit_id first_address number : Nat) : Request × Frame :=
  let request_body : ReadMultipleHoldingRegistersRequest := ⟨first_address, number⟩
  let (head, f') :=
    f.head unit_id Function.ReadMultipleHoldingRegisters request_body.len false
  (Request.ReadMultipleHoldingRegisters head request_body, f')

/-- `Frame::read_input_registers_request`. -/
def Frame.read_input_registers_request (f : Frame)
    (unit_id first_address number : Nat) : Request × Frame :=
  let request_body : ReadInputRegistersRequest := ⟨first_address, number⟩
  let (head, f') := f.head unit_id Function.ReadInputRegisters request_body.len false
  (Request.ReadInputRegisters head request_body, f')

/-- `Frame::write_single_coil_request`. -/
def Frame.write_single_coil_request (f : Frame) (unit_id address value : Nat) :
    Request × Frame :=
  let request_body : WriteSingleCoilRequest := ⟨address, value⟩
  let (head, f') := f.head unit_id Function.WriteSingleCoil request_body.len false
  (Request.WriteSingleCoil head request_body, f')

/-- `Frame::write_single_holding_register_request`. -/
def Frame.write_single_holding_register_request (f : Frame)
    (unit_id address value : Nat) : Request × Frame :=
  let request_body : WriteSingleHoldingRegisterRequest := ⟨address, value⟩
  let (head, f') :=
    f.head unit_id Function.WriteSingleHoldingRegister request_body.len false
  (Request.WriteSingleHoldingRegister head request_body, f')

/-- `Frame::write_multiple_coils_request`. -/
def Frame.write_multiple_coils_request (f : Frame)
    (unit_id address coils_number : Nat) (values : List Nat) : Request × Frame :=
  let request_body := WriteMultipleCoilsRequest.new address coils_number values
  let (head, f') := f.head unit_id Function.WriteMultipleCoils request_body.len false
  (Request.WriteMultipleCoils head request_body, f')

/-- `Frame::write_multiple_holding_registers_request`. -/
def Frame.write_multiple_holding_registers_request (f : Frame)
    (unit_id address : Nat) (values : List Nat) : Request × Frame :=
  let request_body := WriteMultipleHoldingRegistersRequest.new address values
  let (head, f') :=
    f.head unit_id Function.WriteMultipleHoldingRegisters request_body.len false
  (Request.WriteMultipleHoldingRegisters head request_body, f')

/-- `Frame::read_coils_response`. -/
def Frame.read_coils_response (f : Frame) (unit_id : Nat) (values : List Nat) :
    Response × Frame :=
  let response_body := ReadCoilsResponse.new values
  let (head, f') := f.head unit_id Function.ReadCoils response_body.len false
  (Response.ReadCoils head response_body, f')

/-- `Frame::read_discrete_response`. -/
def Frame.read_discrete_response (f : Frame) (unit_id : Nat) (values : List Nat) :
    Response × Frame :=
  let response_body := ReadDiscreteInputsResponse.new values
  let (head, f') := f.head unit_id Function.ReadDiscreteInputs response_body.len false
  (Response.ReadDiscreteInputs head response_body, f')

/-- `Frame::read_holding_register_response`. -/
def Frame.read_holding_register_response (f : Frame) (unit_id : Nat)
    (values : List Nat) : Response × Frame :=
  let response_body := ReadMultipleHoldingRegistersResponse.new values
  let (head, f') :=
    f.head unit_id Function.ReadMultipleHoldingRegisters response_body.len false
  (Response.ReadMultipleHoldingRegisters head response_body, f')

/-- `Frame::read_input_register_response`. -/
def Frame.read_input_register_response (f : Frame) (unit_id : Nat)
    (values : List Nat) : Response × Frame :=
  let response_body := ReadInputRegistersResponse.new values
  let (head, f') := f.head unit_id Function.ReadInputRegisters response_body.len false
  (Response.ReadInputRegisters head response_body, f')

/-- `Frame::write_single_coil_response`. -/
def Frame.write_single_coil_response (f : Frame) (unit_id address value : Nat) :
    Response × Frame :=
  let response_body := WriteSingleCoilResponse.new address value
  let (head, f') := f.head unit_id Function.WriteSingleCoil response_body.len false
  (Response.WriteSingleCoil head response_body, f')

/-- `Frame::write_single_holding_register_response`. -/
def Frame.write_single_holding_register_response (f : Frame)
    (unit_id address value : Nat) : Response × Frame :=
  let response_body := WriteSingleHoldingRegisterResponse.new address value
  let (head, f') :=
    f.head unit_id Function.WriteSingleHoldingRegister response_body.len false
  (Response.WriteSingleHoldingRegister head response_body, f')

/-- `Frame::write_multiple_coils_response`. -/
def Frame.write_multiple_coils_response (f : Frame)
    (unit_id address number : Nat) : Response × Frame :=
  let response_body := WriteMultipleCoilsResponse.new address number
  let (head, f') := f.head unit_id Function.WriteMultipleCoils response_body.len false
  (Response.WriteMultipleCoils head response_body, f')

/-- `Frame::write_multiple_holding_registers_response`. -/
def Frame.write_multiple_holding_registers_response (f : Frame)
    (unit_id address number : Nat) : Response × Frame :=
  let response_body := WriteMultipleHoldingRegistersResponse.new address number
  let (head, f') :=
    f.head unit_id Function.WriteMultipleHoldingRegisters response_body.len false
  (Response.WriteMultipleHoldingRegisters head response_body, f')

/-- `Frame::exception_response`: `is_exception = true`, the head stores the
original function. -/
def Frame.exception_response (f : Frame) (unit_id : Nat) (function : Function)
    (exception : Exception) : Response × Frame :=
  let response_body := ExceptionResponse.new exception
  let (head, f') := f.head unit_id function response_body.len true
  (Response.Exception head response_body, f')

/-! ## Encoding (`src/codec/encoder.rs`) -/

/-- `put_u16`: big-endian serialization of a 16-bit value. -/
def be16 (x : Nat) : List Nat := [x / 256, x % 256]

/-- `From<Head> for BytesMut` (`src/codec/encoder.rs`): the function byte is
the code plus 0x80 for exceptions; TCP heads are prefixed with
`tid`, `pid` and `length`, RTU heads are just `uid` and the function byte. -/
def headToBytes (head : Head) : List Nat :=
  let function_code :=
    if head.is_exception then head.function.to_code + 0x80
    else head.function.to_code
  match head.version with
  | Version.Tcp => be16 head.tid ++ be16 head.pid ++ be16 head.length
      ++ [head.uid, function_code]
  | Version.Rtu => [head.uid, function_code]

/-- `From<ReadCoilsRequest> for BytesMut` and the analogous 4-byte
address/count request encoders. -/
def ReadCoilsRequest.toBytes (b : ReadCoilsRequest) : List Nat :=
  be16 b.first_address ++ be16 b.coils_number

def ReadDiscreteInputsRequest.toBytes (b : ReadDiscreteInputsRequest) : List Nat :=
  be16 b.first_address ++ be16 b.discrete_inputs_number

def ReadMultipleHoldingRegistersRequest.toBytes
    (b : ReadMultipleHoldingRegistersRequest) : List Nat :=
  be16 b.first_address ++ be16 b.registers_number

def ReadInputRegistersRequest.toBytes (b : ReadInputRegistersRequest) : List Nat :=
  be16 b.first_address ++ be16 b.registers_number

def WriteSingleCoilRequest.toBytes (b : WriteSingleCoilRequest) : List Nat :=
  be16 b.coil_address ++ be16 b.value

def WriteSingleHoldingRegisterRequest.toBytes
    (b : WriteSingleHoldingRegisterRequest) : List Nat :=
  be16 b.register_address ++ be16 b.value

/-- `From<WriteMultipleCoilsRequest> for BytesMut`: address, count, byte
count, then the raw payload. -/
def WriteMultipleCoilsRequest.toBytes (b : WriteMultipleCoilsRequest) : List Nat :=
  be16 b.first_address ++ be16 b.coils_number ++ [b.bytes_number] ++ b.values

def WriteMultipleHoldingRegistersRequest.toBytes
    (b : WriteMultipleHoldingRegistersRequest) : List Nat :=
  be16 b.first_address ++ be16 b.registers_number ++ [b.bytes_number] ++ b.values

/-- `From<ReadCoilsResponse> for BytesMut` and the analogous byte-count plus
payload response encoders. -/
def ReadCoilsResponse.toBytes (b : ReadCoilsResponse) : List Nat :=
  b.bytes_number :: b.values

def ReadDiscreteInputsResponse.toBytes (b : ReadDiscreteInputsResponse) : List Nat :=
  b.bytes_number :: b.values

def ReadMultipleHoldingRegistersResponse.toBytes
    (b : ReadMultipleHoldingRegistersResponse) : List Nat :=
  b.bytes_number :: b.values

def ReadInputRegistersResponse.toBytes (b : ReadInputRegistersResponse) : List Nat :=
  b.bytes_number :: b.values

def WriteSingleCoilResponse.toBytes (b : WriteSingleCoilResponse) : List Nat :=
  be16 b.coil_address ++ be16 b.value

def WriteSingleHoldingRegisterResponse.toBytes
    (b : WriteSingleHoldingRegisterResponse) : List Nat :=
  be16 b.register_address ++ be16 b.value

def WriteMultipleCoilsResponse.toBytes (b : WriteMultipleCoilsResponse) : List Nat :=
  be16 b.first_address ++ be16 b.coils_number

def WriteMultipleHoldingRegistersResponse.toBytes
    (b : WriteMultipleHoldingRegistersResponse) : List Nat :=
  be16 b.first_address ++ be16 b.registers_number

/-- `From<ExceptionResponse> for BytesMut`: the single exception-code byte. -/
def ExceptionResponse.toBytes (b : ExceptionResponse) : List Nat :=
  [b.exception.to_code]

/-- Head of a request (the head component every `Request` variant carries). -/
def Request.head : Request → Head
  | .ReadCoils h _ => h
  | .ReadDiscreteInputs h _ => h
  | .ReadMultipleHoldingRegisters h _ => h
  | .ReadInputRegisters h _ => h
  | .WriteSingleCoil h _ => h
  | .WriteSingleHoldingRegister h _ => h
  | .WriteMultipleCoils h _ => h
  | .WriteMultipleHoldingRegisters h _ => h

/-- Encoded body of a request (the body component's `From<_> for BytesMut`). -/
def Request.bodyBytes : Request → List Nat
  | .ReadCoils _ b => b.toBytes
  | .ReadDiscreteInputs _ b => b.toBytes
  | .ReadMultipleHoldingRegisters _ b => b.toBytes
  | .ReadInputRegisters _ b => b.toBytes
  | .WriteSingleCoil _ b => b.toBytes
  | .WriteSingleHoldingRegister _ b => b.toBytes
  | .WriteMultipleCoils _ b => b.toBytes
  | .WriteMultipleHoldingRegisters _ b => b.toBytes

/-- Head of a response. -/
def Response.head : Response → Head
  | .ReadCoils h _ => h
  | .ReadDiscreteInputs h _ => h
  | .ReadMultipleHoldingRegisters h _ => h
  | .ReadInputRegisters h _ => h
  | .WriteSingleCoil h _ => h
  | .WriteSingleHoldingRegister h _ => h
  | .WriteMultipleCoils h _ => h
  | .WriteMultipleHoldingRegisters h _ => h
  | .Exception h _ => h

/-- Encoded body of a response. -/
def Response.bodyBytes : Response → List Nat
  | .ReadCoils _ b => b.toBytes
  | .ReadDiscreteInputs _ b => b.toBytes
  | .ReadMultipleHoldingRegisters _ b => b.toBytes
  | .ReadInputRegisters _ b => b.toBytes
  | .WriteSingleCoil _ b => b.toBytes
  | .WriteSingleHoldingRegister _ b => b.toBytes
  | .WriteMultipleCoils _ b => b.toBytes
  | .WriteMultipleHoldingRegisters _ b => b.toBytes
  | .Exception _ b => b.toBytes

/-- `request_to_bytesmut` (`src/codec/encoder.rs`): every variant writes the
head bytes, then the body bytes. -/
def request_to_bytesmut (item : Request) : List Nat :=
  headToBytes item.head ++ item.bodyBytes

/-- `response_to_bytesmut` (`src/codec/encoder.rs`). -/
def response_to_bytesmut (item : Response) : List Nat :=
  headToBytes item.head ++ item.bodyBytes

/-- `Encoder<Request> for TcpClientCodec` (output into a fresh buffer). -/
def TcpClientCodec.encode (item : Request) : List Nat :=
  request_to_bytesmut item

/-- `Encoder<Response> for TcpServerCodec` (output into a fresh buffer). -/
def TcpServerCodec.encode (item : Response) : List Nat :=
  response_to_bytesmut item

/-- `Encoder<Request> for RtuClientCodec`: serialize, then append
`compute_crc` over the serialized bytes with `put_u16` (output into a fresh
buffer). -/
def RtuClientCodec.encode (item : Request) : List Nat :=
  let dst := request_to_bytesmut item
  dst ++ be16 (crc.compute dst)

/-- `Encoder<Response> for RtuServerCodec`. -/
def RtuServerCodec.encode (item : Response) : List Nat :=
  let dst := response_to_bytesmut item
  dst ++ be16 (crc.compute dst)

/-! ## Decoding (`src/codec/decoder.rs`)

Every decoder takes the receive buffer and returns the outcome together with
the buffer as the Rust caller sees it afterwards (`BytesMut` is mutated in
place by `copy_to_bytes` / `get_u16`).  Buffer over-reads and `unwrap` on a
decode failure are panics in the Rust source; they are the explicit
`panicked` outcome here. -/

/-- Decode failures (`std::io::Error` values constructed in
`src/codec/decoder.rs`, distinguished by construction site). -/
inductive DecodeError where
  | invalidFunctionCode
  | invalidChecksum
  | invalidExceptionCode
deriving DecidableEq, Repr

/-- Result of one `Decoder::decode` call: `Ok(None)`, `Ok(Some(frame))`,
`Err(e)`, or a Rust panic. -/
inductive Outcome (α : Type) where
  | needMore
  | frame (a : α)
  | err (e : DecodeError)
  | panicked
deriving DecidableEq, Repr

/-- `TryFrom<u8> for Function` (`src/codec/decoder.rs`). -/
def Function.tryFrom : Nat → Except DecodeError Function
  | 0x01 => .ok .ReadCoils
  | 0x02 => .ok .ReadDiscreteInputs
  | 0x03 => .ok .ReadMultipleHoldingRegisters
  | 0x04 => .ok .ReadInputRegisters
  | 0x05 => .ok .WriteSingleCoil
  | 0x06 => .ok .WriteSingleHoldingRegister
  | 0x0F => .ok .WriteMultipleCoils
  | 0x10 => .ok .WriteMultipleHoldingRegisters
  | _ => .error .invalidFunctionCode

/-- `get_function` (`src/codec/decoder.rs`): function code at most 0x80 is a
plain function, above 0x80 the exception bit is subtracted. -/
def get_function (function_code : Nat) :
    Except DecodeError (Function × Bool) :=
  if function_code ≤ 0x80 then
    (Function.tryFrom function_code).map (fun f => (f, false))
  else
    (Function.tryFrom (function_code - 0x80)).map (fun f => (f, true))

/-- `Head::tcp_try_from` (`src/codec/decoder.rs`): parse the 8-byte MBAP
header (the decoders always pass exactly 8 bytes; shorter input would be a
`Bytes` over-read panic, an unreachable catch-all here). -/
def Head.tcp_try_from : List Nat → Except DecodeError Head
  | b0 :: b1 :: b2 :: b3 :: b4 :: b5 :: b6 :: b7 :: _ =>
    match get_function b7 with
    | .error e => .error e
    | .ok (function, is_exception) =>
      .ok { tid := b0 * 256 + b1
            pid := b2 * 256 + b3
            length := b4 * 256 + b5
            uid := b6
            function := function
            version := Version.Tcp
            is_exception := is_exception }
  | _ => .error .invalidFunctionCode

/-- `Head::rtu_try_from` (`src/codec/decoder.rs`): unit id and function byte;
`tid`, `pid` and `length` are zero until `body_length` back-fills the
length. -/
def Head.rtu_try_from : List Nat → Except DecodeError Head
  | b0 :: b1 :: _ =>
    match get_function b1 with
    | .error e => .error e
    | .ok (function, is_exception) =>
      .ok { tid := 0
            pid := 0
            length := 0
            uid := b0
            function := function
            version := Version.Rtu
            is_exception := is_exception }
  | _ => .error .invalidFunctionCode

/-- `From<Bytes> for ReadCoilsRequest` and the analogous two-u16 body
parsers; fewer than four bytes is a `get_u16` over-read panic (`none`). -/
def ReadCoilsRequest.fromBytes : List Nat → Option ReadCoilsRequest
  | b0 :: b1 :: b2 :: b3 :: _ => some ⟨b0 * 256 + b1, b2 * 256 + b3⟩
  | _ => none

def ReadDiscreteInputsRequest.fromBytes : List Nat → Option ReadDiscreteInputsRequest
  | b0 :: b1 :: b2 :: b3 :: _ => some ⟨b0 * 256 + b1, b2 * 256 + b3⟩
  | _ => none

def ReadMultipleHoldingRegistersRequest.fromBytes :
    List Nat → Option ReadMultipleHoldingRegistersRequest
  | b0 :: b1 :: b2 :: b3 :: _ => some ⟨b0 * 256 + b1, b2 * 256 + b3⟩
  | _ => none

def ReadInputRegistersRequest.fromBytes : List Nat → Option ReadInputRegistersRequest
  | b0 :: b1 :: b2 :: b3 :: _ => some ⟨b0 * 256 + b1, b2 * 256 + b3⟩
  | _ => none

def WriteSingleCoilRequest.fromBytes : List Nat → Option WriteSingleCoilRequest
  | b0 :: b1 :: b2 :: b3 :: _ => some ⟨b0 * 256 + b1, b2 * 256 + b3⟩
  | _ => none

def WriteSingleHoldingRegisterRequest.fromBytes :
    List Nat → Option WriteSingleHoldingRegisterRequest
  | b0 :: b1 :: b2 :: b3 :: _ => some ⟨b0 * 256 + b1, b2 * 256 + b3⟩
  | _ => none

/-- `From<Bytes> for WriteMultipleCoilsRequest`: two u16 fields, the byte
count, then all remaining bytes as the payload. -/
def WriteMultipleCoilsRequest.fromBytes : List Nat → Option WriteMultipleCoilsRequest
  | b0 :: b1 :: b2 :: b3 :: b4 :: rest => some ⟨b0 * 256 + b1, b2 * 256 + b3, b4, rest⟩
  | _ => none

def WriteMultipleHoldingRegistersRequest.fromBytes :
    List Nat → Option WriteMultipleHoldingRegistersRequest
  | b0 :: b1 :: b2 :: b3 :: b4 :: rest => some ⟨b0 * 256 + b1, b2 * 256 + b3, b4, rest⟩
  | _ => none

/-- `From<Bytes> for ReadCoilsResponse` and the analogous byte-count plus
remaining-payload parsers. -/
def ReadCoilsResponse.fromBytes : List Nat → Option ReadCoilsResponse
  | b0 :: rest => some ⟨b0, rest⟩
  | _ => none

def ReadDiscreteInputsResponse.fromBytes : List Nat → Option ReadDiscreteInputsResponse
  | b0 :: rest => some ⟨b0, rest⟩
  | _ => none

def ReadMultipleHoldingRegistersResponse.fromBytes :
    List Nat → Option ReadMultipleHoldingRegistersResponse
  | b0 :: rest => some ⟨b0, rest⟩
  | _ => none

def ReadInputRegistersResponse.fromBytes : List Nat → Option ReadInputRegistersResponse
  | b0 :: rest => some ⟨b0, rest⟩
  | _ => none

def WriteSingleCoilResponse.fromBytes : List Nat → Option WriteSingleCoilResponse
  | b0 :: b1 :: b2 :: b3 :: _ => some ⟨b0 * 256 + b1, b2 * 256 + b3⟩
  | _ => none

def WriteSingleHoldingRegisterResponse.fromBytes :
    List Nat → Option WriteSingleHoldingRegisterResponse
  | b0 :: b1 :: b2 :: b3 :: _ => some ⟨b0 * 256 + b1, b2 * 256 + b3⟩
  | _ => none

def WriteMultipleCoilsResponse.fromBytes : List Nat → Option WriteMultipleCoilsResponse
  | b0 :: b1 :: b2 :: b3 :: _ => some ⟨b0 * 256 + b1, b2 * 256 + b3⟩
  | _ => none

def WriteMultipleHoldingRegistersResponse.fromBytes :
    List Nat → Option WriteMultipleHoldingRegistersResponse
  | b0 :: b1 :: b2 :: b3 :: _ => some ⟨b0 * 256 + b1, b2 * 256 + b3⟩
  | _ => none

/-- `From<Bytes> for ExceptionResponse` (`src/codec/decoder.rs`): reads the
exception-code byte and `unwrap`s `Exception::try_from`, so an unrecognized
code (where `Exception::from_code` is `None`) is a panic, modelled as
`none`. -/
def ExceptionResponse.fromBytes : List Nat → Option ExceptionResponse
  | b0 :: _ => (Exception.from_code b0).map ExceptionResponse.mk
  | _ => none

/-- `get_request` (`src/codec/decoder.rs`): dispatch on the head's function;
`none` is a body-parser panic. -/
def get_request (src : List Nat) (head : Head) : Option Request :=
  match head.function with
  | .ReadCoils => (ReadCoilsRequest.fromBytes src).map (Request.ReadCoils head)
  | .ReadDiscreteInputs =>
    (ReadDiscreteInputsRequest.fromBytes src).map (Request.ReadDiscreteInputs head)
  | .ReadMultipleHoldingRegisters =>
    (ReadMultipleHoldingRegistersRequest.fromBytes src).map
      (Request.ReadMultipleHoldingRegisters head)
  | .ReadInputRegisters =>
    (ReadInputRegistersRequest.fromBytes src).map (Request.ReadInputRegisters head)
  | .WriteSingleCoil =>
    (WriteSingleCoilRequest.fromBytes src).map (Request.WriteSingleCoil head)
  | .WriteSingleHoldingRegister =>
    (WriteSingleHoldingRegisterRequest.fromBytes src).map
      (Request.WriteSingleHoldingRegister head)
  | .WriteMultipleCoils =>
    (WriteMultipleCoilsRequest.fromBytes src).map (Request.WriteMultipleCoils head)
  | .WriteMultipleHoldingRegisters =>
    (WriteMultipleHoldingRegistersRequest.fromBytes src).map
      (Request.WriteMultipleHoldingRegisters head)

/-- `get_response` (`src/codec/decoder.rs`): exception heads parse an
exception body, otherwise dispatch on the function. -/
def get_response (src : List Nat) (head : Head) : Option Response :=
  if head.is_exception then
    (ExceptionResponse.fromBytes src).map (Response.Exception head)
  else
    match head.function with
    | .ReadCoils => (ReadCoilsResponse.fromBytes src).map (Response.ReadCoils head)
    | .ReadDiscreteInputs =>
      (ReadDiscreteInputsResponse.fromBytes src).map (Response.ReadDiscreteInputs head)
    | .ReadMultipleHoldingRegisters =>
      (ReadMultipleHoldingRegistersResponse.fromBytes src).map
        (Response.ReadMultipleHoldingRegisters head)
    | .ReadInputRegisters =>
      (ReadInputRegistersResponse.fromBytes src).map (Response.ReadInputRegisters head)
    | .WriteSingleCoil =>
      (WriteSingleCoilResponse.fromBytes src).map (Response.WriteSingleCoil head)
    | .WriteSingleHoldingRegister =>
      (WriteSingleHoldingRegisterResponse.fromBytes src).map
        (Response.WriteSingleHoldingRegister head)
    | .WriteMultipleCoils =>
      (WriteMultipleCoilsResponse.fromBytes src).map (Response.WriteMultipleCoils head)
    | .WriteMultipleHoldingRegisters =>
      (WriteMultipleHoldingRegistersResponse.fromBytes src).map
        (Response.WriteMultipleHoldingRegisters head)

/-- `get_u16` on the first two buffered bytes (big-endian). -/
def readBe16 (l : List Nat) : Nat :=
  l.getD 0 0 * 256 + l.getD 1 0

/-- Body length inferred by `RtuClientCodec::decode`: 1 for exceptions,
`(byte at offset 0 after the head) + 1` for the four read responses (0 when
that byte is not yet buffered), 4 for the four write responses. -/
def rtuClientBodyLen (head : Head) (src : List Nat) : Nat :=
  if head.is_exception then 1
  else
    match head.function with
    | .ReadCoils | .ReadDiscreteInputs | .ReadMultipleHoldingRegisters
    | .ReadInputRegisters => (src.get? 0).elim 0 (fun bytes_num => bytes_num + 1)
    | .WriteSingleCoil | .WriteSingleHoldingRegister | .WriteMultipleCoils
    | .WriteMultipleHoldingRegisters => 4

/-- Body length inferred by `RtuServerCodec::decode`: 4 for the read and
write-single requests, `(byte at offset 4 after the head) + 5` for the two
write-multiple requests (0 when that byte is not yet buffered). -/
def rtuServerBodyLen (head : Head) (src : List Nat) : Nat :=
  match head.function with
  | .ReadCoils | .ReadDiscreteInputs | .ReadMultipleHoldingRegisters
  | .ReadInputRegisters | .WriteSingleCoil | .WriteSingleHoldingRegister => 4
  | .WriteMultipleCoils | .WriteMultipleHoldingRegisters =>
    (src.get? 4).elim 0 (fun bytes_num => bytes_num + 5)

/-- `Decoder for RtuClientCodec` (`src/codec/decoder.rs`).  Note that the
two head bytes are consumed by `copy_to_bytes(2)` before the
length-availability check, so a `needMore` return after that point hands the
caller a buffer that lost its head bytes. -/
def RtuClientCodec.decode (src : List Nat) : Outcome Response × List Nat :=
  if src.length < 2 then (.needMore, src)
  else
    let head_bytes := src.take 2
    let s1 := src.drop 2
    match Head.rtu_try_from head_bytes with
    | .error e => (.err e, s1)
    | .ok head =>
      let len := rtuClientBodyLen head s1
      if s1.length < len + 2 then (.needMore, s1)
      else
        let head := head.body_length len
        let body_bytes := s1.take len
        match get_response body_bytes head with
        | none => (.panicked, [])
        | some response =>
          let s2 := s1.drop len
          let crcv := readBe16 s2
          let s3 := s2.drop 2
          if crc.check (head_bytes ++ body_bytes) crcv then (.frame response, s3)
          else (.err .invalidChecksum, s3)

/-- `Decoder for RtuServerCodec` (`src/codec/decoder.rs`). -/
def RtuServerCodec.decode (src : List Nat) : Outcome Request × List Nat :=
  if src.length < 2 then (.needMore, src)
  else
    let head_bytes := src.take 2
    let s1 := src.drop 2
    match Head.rtu_try_from head_bytes with
    | .error e => (.err e, s1)
    | .ok head =>
      let len := rtuServerBodyLen head s1
      if s1.length < len + 2 then (.needMore, s1)
      else
        let head := head.body_length len
        let body_bytes := s1.take len
        match get_request body_bytes head with
        | none => (.panicked, [])
        | some request =>
          let s2 := s1.drop len
          let crcv := readBe16 s2
          let s3 := s2.drop 2
          if crc.check (head_bytes ++ body_bytes) crcv then (.frame request, s3)
          else (.err .invalidChecksum, s3)

/-- `Decoder for TcpClientCodec` (`src/codec/decoder.rs`).  The source
checks `src.len() < 4` (not 8) before `copy_to_bytes(8)`, so 4 to 7 buffered
bytes panic; `head.length as usize - 2` and `copy_to_bytes(len)` with a
short buffer also panic. -/
def TcpClientCodec.decode (src : List Nat) : Outcome Response × List Nat :=
  if src.length < 4 then (.needMore, src)
  else if src.length < 8 then (.panicked, [])
  else
    let s1 := src.drop 8
    match Head.tcp_try_from (src.take 8) with
    | .error e => (.err e, s1)
    | .ok head =>
      if head.length < 2 then (.panicked, [])
      else
        let len := head.length - 2
        if s1.length < len then (.panicked, [])
        else
          match get_response (s1.take len) head with
          | none => (.panicked, [])
          | some response => (.frame response, s1.drop len)

/-- `Decoder for TcpServerCodec` (`src/codec/decoder.rs`). -/
def TcpServerCodec.decode (src : List Nat) : Outcome Request × List Nat :=
  if src.length < 8 then (.needMore, src)
  else
    let s1 := src.drop 8
    match Head.tcp_try_from (src.take 8) with
    | .error e => (.err e, s1)
    | .ok head =>
      if head.length < 2 then (.panicked, [])
      else
        let len := head.length - 2
        if s1.length < len then (.panicked, [])
        else
          match get_request (s1.take len) head with
          | none => (.panicked, [])
          | some request => (.frame request, s1.drop len)

/-! ## Claim theorems -/

/-- C2: the claim that feeding a correctly-formed frame one byte at a time
never panics and always leaves the buffered bytes intact fails on the code.
With 4 buffered bytes (the first 4 bytes of a valid TCP frame) the TCP
client decoder panics in `copy_to_bytes(8)` because its minimum-length guard
tests `< 4` instead of `< 8`; with a complete 8-byte MBAP header but the
body not yet buffered, both TCP decoders panic in `copy_to_bytes(len)`; and
the RTU decoders, given exactly the 2 head bytes of a valid frame, do
return the need-more-input outcome but only after `copy_to_bytes(2)` already
consumed those bytes, so the caller's buffer (second component) is empty
instead of still holding them. -/
theorem c2_partial_frame_instability :
    TcpClientCodec.decode [0x00, 0x01, 0x00, 0x00] = (Outcome.panicked, []) ∧
    TcpServerCodec.decode [0x00, 0x01, 0x00, 0x00, 0x00, 0x06, 0x01, 0x01]
      = (Outcome.panicked, []) ∧
    RtuClientCodec.decode [0x0B, 0x01] = (Outcome.needMore, []) ∧
    RtuServerCodec.decode [0x0B, 0x01] = (Outcome.needMore, []) ∧
    ([0x0B, 0x01] ≠ ([] : List Nat)) := by
  decide

/-- C3: the claimed encode/decode round-trip of exception codes fails on the
code for `IllegalFunction`: `to_code` maps it to 0x01 but `from_code` maps
wire byte 0x01 to `IllegalDataValue` (the decode table's 0x01 entry
contradicts the encode table); the other four codes do round-trip. -/
theorem c3_exception_code_round_trip_failure :
    Exception.to_code Exception.IllegalFunction = 0x01 ∧
    Exception.from_code 0x01 = some Exception.IllegalDataValue ∧
    Exception.from_code (Exception.to_code Exception.IllegalFunction)
      ≠ some Exception.IllegalFunction ∧
    (∀ e : Exception, e ≠ Exception.IllegalFunction →
      Exception.from_code e.to_code = some e) := by
  refine ⟨rfl, rfl, by decide, ?_⟩
  intro e he
  cases e
  · exact absurd rfl he
  all_goals rfl

/-- Witness for C3 at a concrete exception: `IllegalDataAddress` round-trips. -/
theorem c3_exception_code_round_trip_failure_witness :
    Exception.from_code (Exception.to_code Exception.IllegalDataAddress)
      = some Exception.IllegalDataAddress :=
  c3_exception_code_round_trip_failure.2.2.2 Exception.IllegalDataAddress (by decide)

/-- C5: `exception_response(0x0A, ReadCoils, IllegalDataAddress)` on a fresh
builder encodes to `00 01 00 00 00 03 0A 81 02` under the TCP server codec
and to `0A 81 02 B0 53` under the RTU server codec; the function byte 0x81
is the original code plus 0x80 and the TCP length field is 3. -/
theorem c5_exception_response_encoding :
    TcpServerCodec.encode
        (Frame.tcp.exception_response 0x0A Function.ReadCoils
          Exception.IllegalDataAddress).1
      = [0x00, 0x01, 0x00, 0x00, 0x00, 0x03, 0x0A, 0x81, 0x02] ∧
    RtuServerCodec.encode
        (Frame.rtu.exception_response 0x0A Function.ReadCoils
          Exception.IllegalDataAddress).1
      = [0x0A, 0x81, 0x02, 0xB0, 0x53] ∧
    Function.to_code Function.ReadCoils + 0x80 = 0x81 ∧
    (Frame.tcp.exception_response 0x0A Function.ReadCoils
        Exception.IllegalDataAddress).1.head.length = 3 := by
  decide

/-- C9: the claim that an unrecognized exception-code byte yields the typed
`UnrecognizedExceptionCode` failure fails on the code: parsing an exception
response whose code byte is 0x06 panics (`ExceptionResponse::from` calls
`Exception::try_from(..).unwrap()`), under both the TCP and the RTU client
codec, instead of returning the typed error. -/
theorem c9_unrecognized_exception_code_panics :
    TcpClientCodec.decode [0x00, 0x01, 0x00, 0x00, 0x00, 0x03, 0x0A, 0x81, 0x06]
      = (Outcome.panicked, []) ∧
    RtuClientCodec.decode [0x0A, 0x81, 0x06, 0x00, 0x00] = (Outcome.panicked, []) ∧
    Exception.from_code 0x06 = none ∧
    ExceptionResponse.fromBytes [0x06] = none := by
  decide

/-- The transaction id handed out by the `n`-th successive build (0-indexed)
for a fixed unit id on a given builder: iterates `Frame::get_tid` the way the
builder constructors do. -/
def Frame.tidSequence (f : Frame) (unit_id : Nat) : Nat → Nat
  | 0 => (f.get_tid unit_id).1
  | n + 1 => Frame.tidSequence (f.get_tid unit_id).2 unit_id n

theorem get_tid_tcp (m : TidMap) (uid : Nat) :
    Frame.get_tid ⟨Version.Tcp, m⟩ uid =
      ((match m uid with | none => 1 | some v => if v < 65535 then v + 1 else 1),
        ⟨Version.Tcp, fun k => if k = uid then
            some (match m uid with
              | none => 1
              | some v => if v < 65535 then v + 1 else 1)
          else m k⟩) :=
  rfl

theorem next_tid_eq (k : Nat) :
    (if k % 65535 + 1 < 65535 then k % 65535 + 1 + 1 else 1)
      = (k + 1) % 65535 + 1 := by
  split_ifs with h <;> omega

theorem tidSequence_tcp_aux (uid : Nat) :
    ∀ (n k : Nat) (m : TidMap), m uid = some (k % 65535 + 1) →
      Frame.tidSequence ⟨Version.Tcp, m⟩ uid n = (k + 1 + n) % 65535 + 1 := by
  intro n
  induction n with
  | zero =>
    intro k m hm
    have h0 : Frame.tidSequence ⟨Version.Tcp, m⟩ uid 0
        = (if k % 65535 + 1 < 65535 then k % 65535 + 1 + 1 else 1) := by
      simp only [Frame.tidSequence, get_tid_tcp, hm]
    rw [h0, next_tid_eq]
  | succ n ih =>
    intro k m hm
    show Frame.tidSequence (Frame.get_tid ⟨Version.Tcp, m⟩ uid).2 uid n = _
    have hstep : (Frame.get_tid ⟨Version.Tcp, m⟩ uid).2
        = ⟨Version.Tcp, fun j => if j = uid then some ((k + 1) % 65535 + 1)
            else m j⟩ := by
      simp only [get_tid_tcp, hm, next_tid_eq]
    rw [hstep, ih (k + 1) _ (by simp)]
    omega

/-- C6: on a fresh TCP builder the `n`-th build for a fixed unit id receives
transaction id `n % 65535 + 1`, i.e. the ids run 1, 2, 3, …; the id is never
0; the 65535-th build (0-indexed 65534) receives 0xFFFF and the next one
wraps back to 1; and every head built through an RTU builder carries
transaction id 0 (`get_tid` returns 0 for RTU without touching the table). -/
theorem c6_transaction_id_monotonicity :
    (∀ uid n, Frame.tidSequence Frame.tcp uid n = n % 65535 + 1) ∧
    (∀ uid n, Frame.tidSequence Frame.tcp uid n ≠ 0) ∧
    (∀ uid, Frame.tidSequence Frame.tcp uid 65534 = 0xFFFF) ∧
    (∀ uid, Frame.tidSequence Frame.tcp uid 65535 = 1) ∧
    (∀ (m : TidMap) uid function body_length is_exception,
      (((Frame.mk Version.Rtu m).head uid function body_length is_exception).1).tid
        = 0) ∧
    (∀ (m : TidMap) uid, ((Frame.mk Version.Rtu m).get_tid uid).1 = 0) := by
  have hmain : ∀ uid n, Frame.tidSequence Frame.tcp uid n = n % 65535 + 1 := by
    intro uid n
    cases n with
    | zero => rfl
    | succ n =>
      show Frame.tidSequence (Frame.get_tid Frame.tcp uid).2 uid n = _
      have h0 : Frame.tcp = (⟨Version.Tcp, fun _ => none⟩ : Frame) := rfl
      rw [h0]
      simp only [get_tid_tcp]
      rw [tidSequence_tcp_aux uid n 0 _ (by simp)]
      omega
  refine ⟨hmain, ?_, ?_, ?_, ?_, ?_⟩
  · intro uid n
    rw [hmain uid n]
    omega
  · intro uid
    rw [hmain]
  · intro uid
    rw [hmain]
  · intro m uid function body_length is_exception
    rfl
  · intro m uid
    rfl

/-! Unfolding lemmas: the value each builder constructor returns, with the
head written via `Head.new` and the issued transaction id. -/

theorem frame_head_fst (f : Frame) (uid : Nat) (function : Function)
    (body_length : Nat) (is_exception : Bool) :
    (f.head uid function body_length is_exception).1
      = Head.new (f.get_tid uid).1 uid function body_length f.version
          is_exception := by
  rcases hp : f.get_tid uid with ⟨t, f'⟩
  simp [Frame.head, hp]

theorem build_read_coils_request (f : Frame) (uid a n : Nat) :
    (f.read_coils_request uid a n).1
      = Request.ReadCoils
          (Head.new (f.get_tid uid).1 uid Function.ReadCoils 4 f.version false)
          ⟨a, n⟩ := by
  rcases hp : f.get_tid uid with ⟨t, f'⟩
  simp [Frame.read_coils_request, Frame.head, hp, ReadCoilsRequest.len]

theorem build_read_discrete_request (f : Frame) (uid a n : Nat) :
    (f.read_discrete_request uid a n).1
      = Request.ReadDiscreteInputs
          (Head.new (f.get_tid uid).1 uid Function.ReadDiscreteInputs 4
            f.version false)
          ⟨a, n⟩ := by
  rcases hp : f.get_tid uid with ⟨t, f'⟩
  simp [Frame.read_discrete_request, Frame.head, hp, ReadDiscreteInputsRequest.len]

theorem build_read_multiple_holding_registers_request (f : Frame) (uid a n : Nat) :
    (f.read_multiple_holding_registers_request uid a n).1
      = Request.ReadMultipleHoldingRegisters
          (Head.new (f.get_tid uid).1 uid Function.ReadMultipleHoldingRegisters 4
            f.version false)
          ⟨a, n⟩ := by
  rcases hp : f.get_tid uid with ⟨t, f'⟩
  simp [Frame.read_multiple_holding_registers_request, Frame.head, hp,
    ReadMultipleHoldingRegistersRequest.len]

theorem build_read_input_registers_request (f : Frame) (uid a n : Nat) :
    (f.read_input_registers_request uid a n).1
      = Request.ReadInputRegisters
          (Head.new (f.get_tid uid).1 uid Function.ReadInputRegisters 4
            f.version false)
          ⟨a, n⟩ := by
  rcases hp : f.get_tid uid with ⟨t, f'⟩
  simp [Frame.read_input_registers_request, Frame.head, hp,
    ReadInputRegistersRequest.len]

theorem build_write_single_coil_request (f : Frame) (uid a v : Nat) :
    (f.write_single_coil_request uid a v).1
      = Request.WriteSingleCoil
          (Head.new (f.get_tid uid).1 uid Function.WriteSingleCoil 4
            f.version false)
          ⟨a, v⟩ := by
  rcases hp : f.get_tid uid with ⟨t, f'⟩
  simp [Frame.write_single_coil_request, Frame.head, hp, WriteSingleCoilRequest.len]

theorem build_write_single_holding_register_request (f : Frame) (uid a v : Nat) :
    (f.write_single_holding_register_request uid a v).1
      = Request.WriteSingleHoldingRegister
          (Head.new (f.get_tid uid).1 uid Function.WriteSingleHoldingRegister 4
            f.version false)
          ⟨a, v⟩ := by
  rcases hp : f.get_tid uid with ⟨t, f'⟩
  simp [Frame.write_single_holding_register_request, Frame.head, hp,
    WriteSingleHoldingRegisterRequest.len]

theorem build_write_multiple_coils_request (f : Frame) (uid a c : Nat)
    (vs : List Nat) :
    (f.write_multiple_coils_request uid a c vs).1
      = Request.WriteMultipleCoils
          (Head.new (f.get_tid uid).1 uid Function.WriteMultipleCoils
            ((5 + vs.length % 65536) % 65536) f.version false)
          (WriteMultipleCoilsRequest.new a c vs) := by
  rcases hp : f.get_tid uid with ⟨t, f'⟩
  simp [Frame.write_multiple_coils_request, Frame.head, hp,
    WriteMultipleCoilsRequest.len, WriteMultipleCoilsRequest.new]

theorem build_write_multiple_holding_registers_request (f : Frame) (uid a : Nat)
    (vs : List Nat) :
    (f.write_multiple_holding_registers_request uid a vs).1
      = Request.WriteMultipleHoldingRegisters
          (Head.new (f.get_tid uid).1 uid Function.WriteMultipleHoldingRegisters
            ((5 + vs.length % 65536) % 65536) f.version false)
          (WriteMultipleHoldingRegistersRequest.new a vs) := by
  rcases hp : f.get_tid uid with ⟨t, f'⟩
  simp [Frame.write_multiple_holding_registers_request, Frame.head, hp,
    WriteMultipleHoldingRegistersRequest.len,
    WriteMultipleHoldingRegistersRequest.new]

theorem build_read_coils_response (f : Frame) (uid : Nat) (vs : List Nat) :
    (f.read_coils_response uid vs).1
      = Response.ReadCoils
          (Head.new (f.get_tid uid).1 uid Function.ReadCoils
            ((1 + vs.length % 65536) % 65536) f.version false)
          (ReadCoilsResponse.new vs) := by
  rcases hp : f.get_tid uid with ⟨t, f'⟩
  simp [Frame.read_coils_response, Frame.head, hp, ReadCoilsResponse.len,
    ReadCoilsResponse.new]

theorem build_read_discrete_response (f : Frame) (uid : Nat) (vs : List Nat) :
    (f.read_discrete_response uid vs).1
      = Response.ReadDiscreteInputs
          (Head.new (f.get_tid uid).1 uid Function.ReadDiscreteInputs
            ((1 + vs.length % 65536) % 65536) f.version false)
          (ReadDiscreteInputsResponse.new vs) := by
  rcases hp : f.get_tid uid with ⟨t, f'⟩
  simp [Frame.read_discrete_response, Frame.head, hp,
    ReadDiscreteInputsResponse.len, ReadDiscreteInputsResponse.new]

theorem build_read_holding_register_response (f : Frame) (uid : Nat)
    (vs : List Nat) :
    (f.read_holding_register_response uid vs).1
      = Response.ReadMultipleHoldingRegisters
          (Head.new (f.get_tid uid).1 uid Function.ReadMultipleHoldingRegisters
            ((1 + vs.length % 65536) % 65536) f.version false)
          (ReadMultipleHoldingRegistersResponse.new vs) := by
  rcases hp : f.get_tid uid with ⟨t, f'⟩
  simp [Frame.read_holding_register_response, Frame.head, hp,
    ReadMultipleHoldingRegistersResponse.len,
    ReadMultipleHoldingRegistersResponse.new]

theorem build_read_input_register_response (f : Frame) (uid : Nat)
    (vs : List Nat) :
    (f.read_input_register_response uid vs).1
      = Response.ReadInputRegisters
          (Head.new (f.get_tid uid).1 uid Function.ReadInputRegisters
            ((1 + vs.length % 65536) % 65536) f.version false)
          (ReadInputRegistersResponse.new vs) := by
  rcases hp : f.get_tid uid with ⟨t, f'⟩
  simp [Frame.read_input_register_response, Frame.head, hp,
    ReadInputRegistersResponse.len, ReadInputRegistersResponse.new]

theorem build_write_single_coil_response (f : Frame) (uid a v : Nat) :
    (f.write_single_coil_response uid a v).1
      = Response.WriteSingleCoil
          (Head.new (f.get_tid uid).1 uid Function.WriteSingleCoil 4
            f.version false)
          ⟨a, v⟩ := by
  rcases hp : f.get_tid uid with ⟨t, f'⟩
  simp [Frame.write_single_coil_response, Frame.head, hp,
    WriteSingleCoilResponse.len, WriteSingleCoilResponse.new]

theorem build_write_single_holding_register_response (f : Frame) (uid a v : Nat) :
    (f.write_single_holding_register_response uid a v).1
      = Response.WriteSingleHoldingRegister
          (Head.new (f.get_tid uid).1 uid Function.WriteSingleHoldingRegister 4
            f.version false)
          ⟨a, v⟩ := by
  rcases hp : f.get_tid uid with ⟨t, f'⟩
  simp [Frame.write_single_holding_register_response, Frame.head, hp,
    WriteSingleHoldingRegisterResponse.len, WriteSingleHoldingRegisterResponse.new]

theorem build_write_multiple_coils_response (f : Frame) (uid a n : Nat) :
    (f.write_multiple_coils_response uid a n).1
      = Response.WriteMultipleCoils
          (Head.new (f.get_tid uid).1 uid Function.WriteMultipleCoils 4
            f.version false)
          ⟨a, n⟩ := by
  rcases hp : f.get_tid uid with ⟨t, f'⟩
  simp [Frame.write_multiple_coils_response, Frame.head, hp,
    WriteMultipleCoilsResponse.len, WriteMultipleCoilsResponse.new]

theorem build_write_multiple_holding_registers_response (f : Frame)
    (uid a n : Nat) :
    (f.write_multiple_holding_registers_response uid a n).1
      = Response.WriteMultipleHoldingRegisters
          (Head.new (f.get_tid uid).1 uid Function.WriteMultipleHoldingRegisters 4
            f.version false)
          ⟨a, n⟩ := by
  rcases hp : f.get_tid uid with ⟨t, f'⟩
  simp [Frame.write_multiple_holding_registers_response, Frame.head, hp,
    WriteMultipleHoldingRegistersResponse.len,
    WriteMultipleHoldingRegistersResponse.new]

theorem build_exception_response (f : Frame) (uid : Nat) (function : Function)
    (exception : Exception) :
    (f.exception_response uid function exception).1
      = Response.Exception
          (Head.new (f.get_tid uid).1 uid function 1 f.version true)
          ⟨exception⟩ := by
  rcases hp : f.get_tid uid with ⟨t, f'⟩
  simp [Frame.exception_response, Frame.head, hp, ExceptionResponse.len,
    ExceptionResponse.new]

/-- C7: every Request or Response produced by a Frame builder constructor
has `head.length` equal to 2 plus the encoded byte length of its body (4 for
read requests, write-single bodies and write-multiple echo responses,
`1 + values.len()` for read responses, `5 + values.len()` for write-multiple
requests, 1 for exception responses); the payload-carrying constructors are
bounded so that the u16 length arithmetic does not wrap. -/
theorem c7_length_invariant :
    (∀ (f : Frame) (uid a n : Nat),
      ((f.read_coils_request uid a n).1).head.length
        = 2 + ((f.read_coils_request uid a n).1).bodyBytes.length) ∧
    (∀ (f : Frame) (uid a n : Nat),
      ((f.read_discrete_request uid a n).1).head.length
        = 2 + ((f.read_discrete_request uid a n).1).bodyBytes.length) ∧
    (∀ (f : Frame) (uid a n : Nat),
      ((f.read_multiple_holding_registers_request uid a n).1).head.length
        = 2 + ((f.read_multiple_holding_registers_request uid a n).1).bodyBytes.length) ∧
    (∀ (f : Frame) (uid a n : Nat),
      ((f.read_input_registers_request uid a n).1).head.length
        = 2 + ((f.read_input_registers_request uid a n).1).bodyBytes.length) ∧
    (∀ (f : Frame) (uid a v : Nat),
      ((f.write_single_coil_request uid a v).1).head.length
        = 2 + ((f.write_single_coil_request uid a v).1).bodyBytes.length) ∧
    (∀ (f : Frame) (uid a v : Nat),
      ((f.write_single_holding_register_request uid a v).1).head.length
        = 2 + ((f.write_single_holding_register_request uid a v).1).bodyBytes.length) ∧
    (∀ (f : Frame) (uid a c : Nat) (vs : List Nat), vs.length ≤ 65528 →
      ((f.write_multiple_coils_request uid a c vs).1).head.length
        = 2 + ((f.write_multiple_coils_request uid a c vs).1).bodyBytes.length) ∧
    (∀ (f : Frame) (uid a : Nat) (vs : List Nat), vs.length ≤ 65528 →
      ((f.write_multiple_holding_registers_request uid a vs).1).head.length
        = 2 + ((f.write_multiple_holding_registers_request uid a vs).1).bodyBytes.length) ∧
    (∀ (f : Frame) (uid : Nat) (vs : List Nat), vs.length ≤ 65532 →
      ((f.read_coils_response uid vs).1).head.length
        = 2 + ((f.read_coils_response uid vs).1).bodyBytes.length) ∧
    (∀ (f : Frame) (uid : Nat) (vs : List Nat), vs.length ≤ 65532 →
      ((f.read_discrete_response uid vs).1).head.length
        = 2 + ((f.read_discrete_response uid vs).1).bodyBytes.length) ∧
    (∀ (f : Frame) (uid : Nat) (vs : List Nat), vs.length ≤ 65532 →
      ((f.read_holding_register_response uid vs).1).head.length
        = 2 + ((f.read_holding_register_response uid vs).1).bodyBytes.length) ∧
    (∀ (f : Frame) (uid : Nat) (vs : List Nat), vs.length ≤ 65532 →
      ((f.read_input_register_response uid vs).1).head.length
        = 2 + ((f.read_input_register_response uid vs).1).bodyBytes.length) ∧
    (∀ (f : Frame) (uid a v : Nat),
      ((f.write_single_coil_response uid a v).1).head.length
        = 2 + ((f.write_single_coil_response uid a v).1).bodyBytes.length) ∧
    (∀ (f : Frame) (uid a v : Nat),
      ((f.write_single_holding_register_response uid a v).1).head.length
        = 2 + ((f.write_single_holding_register_response uid a v).1).bodyBytes.length) ∧
    (∀ (f : Frame) (uid a n : Nat),
      ((f.write_multiple_coils_response uid a n).1).head.length
        = 2 + ((f.write_multiple_coils_response uid a n).1).bodyBytes.length) ∧
    (∀ (f : Frame) (uid a n : Nat),
      ((f.write_multiple_holding_registers_response uid a n).1).head.length
        = 2 + ((f.write_multiple_holding_registers_response uid a n).1).bodyBytes.length) ∧
    (∀ (f : Frame) (uid : Nat) (function : Function) (exception : Exception),
      ((f.exception_response uid function exception).1).head.length
        = 2 + ((f.exception_response uid function exception).1).bodyBytes.length) := by
  refine ⟨?_, ?_, ?_, ?_, ?_, ?_, ?_, ?_, ?_, ?_, ?_, ?_, ?_, ?_, ?_, ?_, ?_⟩
  · intro f uid a n
    rw [build_read_coils_request]
    simp [Request.head, Request.bodyBytes, Head.new, ReadCoilsRequest.toBytes, be16]
  · intro f uid a n
    rw [build_read_discrete_request]
    simp [Request.head, Request.bodyBytes, Head.new,
      ReadDiscreteInputsRequest.toBytes, be16]
  · intro f uid a n
    rw [build_read_multiple_holding_registers_request]
    simp [Request.head, Request.bodyBytes, Head.new,
      ReadMultipleHoldingRegistersRequest.toBytes, be16]
  · intro f uid a n
    rw [build_read_input_registers_request]
    simp [Request.head, Request.bodyBytes, Head.new,
      ReadInputRegistersRequest.toBytes, be16]
  · intro f uid a v
    rw [build_write_single_coil_request]
    simp [Request.head, Request.bodyBytes, Head.new,
      WriteSingleCoilRequest.toBytes, be16]
  · intro f uid a v
    rw [build_write_single_holding_register_request]
    simp [Request.head, Request.bodyBytes, Head.new,
      WriteSingleHoldingRegisterRequest.toBytes, be16]
  · intro f uid a c vs hvs
    rw [build_write_multiple_coils_request]
    simp [Request.head, Request.bodyBytes, Head.new,
      WriteMultipleCoilsRequest.toBytes, WriteMultipleCoilsRequest.new, be16]
    omega
  · intro f uid a vs hvs
    rw [build_write_multiple_holding_registers_request]
    simp [Request.head, Request.bodyBytes, Head.new,
      WriteMultipleHoldingRegistersRequest.toBytes,
      WriteMultipleHoldingRegistersRequest.new, be16]
    omega
  · intro f uid vs hvs
    rw [build_read_coils_response]
    simp [Response.head, Response.bodyBytes, Head.new,
      ReadCoilsResponse.toBytes, ReadCoilsResponse.new]
    omega
  · intro f uid vs hvs
    rw [build_read_discrete_response]
    simp [Response.head, Response.bodyBytes, Head.new,
      ReadDiscreteInputsResponse.toBytes, ReadDiscreteInputsResponse.new]
    omega
  · intro f uid vs hvs
    rw [build_read_holding_register_response]
    simp [Response.head, Response.bodyBytes, Head.new,
      ReadMultipleHoldingRegistersResponse.toBytes,
      ReadMultipleHoldingRegistersResponse.new]
    omega
  · intro f uid vs hvs
    rw [build_read_input_register_response]
    simp [Response.head, Response.bodyBytes, Head.new,
      ReadInputRegistersResponse.toBytes, ReadInputRegistersResponse.new]
    omega
  · intro f uid a v
    rw [build_write_single_coil_response]
    simp [Response.head, Response.bodyBytes, Head.new,
      WriteSingleCoilResponse.toBytes, be16]
  · intro f uid a v
    rw [build_write_single_holding_register_response]
    simp [Response.head, Response.bodyBytes, Head.new,
      WriteSingleHoldingRegisterResponse.toBytes, be16]
  · intro f uid a n
    rw [build_write_multiple_coils_response]
    simp [Response.head, Response.bodyBytes, Head.new,
      WriteMultipleCoilsResponse.toBytes, be16]
  · intro f uid a n
    rw [build_write_multiple_holding_registers_response]
    simp [Response.head, Response.bodyBytes, Head.new,
      WriteMultipleHoldingRegistersResponse.toBytes, be16]
  · intro f uid function exception
    rw [build_exception_response]
    simp [Response.head, Response.bodyBytes, Head.new,
      ExceptionResponse.toBytes]

/-- Witness for C7 at concrete inputs: the write-multiple-coils request from
the crate's own test (`values = [0x4D, 0x01]`) and a read-coils response with
a 2-byte payload. -/
theorem c7_length_invariant_witness :
    ((Frame.tcp.write_multiple_coils_request 0x0B 0x001B 0x0009 [0x4D, 0x01]).1).head.length
      = 2 + ((Frame.tcp.write_multiple_coils_request 0x0B 0x001B 0x0009
          [0x4D, 0x01]).1).bodyBytes.length ∧
    ((Frame.tcp.read_coils_response 0x01 [0x00, 0x01]).1).head.length
      = 2 + ((Frame.tcp.read_coils_response 0x01 [0x00, 0x01]).1).bodyBytes.length :=
  ⟨c7_length_invariant.2.2.2.2.2.2.1 Frame.tcp 0x0B 0x001B 0x0009 [0x4D, 0x01]
      (by decide),
    c7_length_invariant.2.2.2.2.2.2.2.2.1 Frame.tcp 0x01 [0x00, 0x01] (by decide)⟩

/-- C8: in every write-multiple request and (one-argument, as the builder
calls them) read response constructor, the byte-count field is derived from
the payload as `values.len() as u8`, hence equals `values.len()` whenever
the payload fits the one-byte field; no constructor takes the byte count as
an argument. -/
theorem c8_byte_count_invariant :
    (∀ (a c : Nat) (vs : List Nat), vs.length < 256 →
      (WriteMultipleCoilsRequest.new a c vs).bytes_number = vs.length) ∧
    (∀ (a : Nat) (vs : List Nat), vs.length < 256 →
      (WriteMultipleHoldingRegistersRequest.new a vs).bytes_number = vs.length) ∧
    (∀ vs : List Nat, vs.length < 256 →
      (ReadCoilsResponse.new vs).bytes_number = vs.length) ∧
    (∀ vs : List Nat, vs.length < 256 →
      (ReadDiscreteInputsResponse.new vs).bytes_number = vs.length) ∧
    (∀ vs : List Nat, vs.length < 256 →
      (ReadMultipleHoldingRegistersResponse.new vs).bytes_number = vs.length) ∧
    (∀ vs : List Nat, vs.length < 256 →
      (ReadInputRegistersResponse.new vs).bytes_number = vs.length) := by
  refine ⟨?_, ?_, ?_, ?_, ?_, ?_⟩
  · intro a c vs hvs
    simp [WriteMultipleCoilsRequest.new]
    omega
  · intro a vs hvs
    simp [WriteMultipleHoldingRegistersRequest.new]
    omega
  · intro vs hvs
    simp [ReadCoilsResponse.new]
    omega
  · intro vs hvs
    simp [ReadDiscreteInputsResponse.new]
    omega
  · intro vs hvs
    simp [ReadMultipleHoldingRegistersResponse.new]
    omega
  · intro vs hvs
    simp [ReadInputRegistersResponse.new]
    omega

/-- Witness for C8 at the crate's own test payloads. -/
theorem c8_byte_count_invariant_witness :
    (WriteMultipleCoilsRequest.new 0x001B 0x0009 [0x4D, 0x01]).bytes_number
      = [0x4D, 0x01].length ∧
    (WriteMultipleHoldingRegistersRequest.new 0x0012
        [0x0B, 0x0A, 0xC1, 0x02]).bytes_number
      = [0x0B, 0x0A, 0xC1, 0x02].length ∧
    (ReadDiscreteInputsResponse.new [0xAC, 0xDB, 0xFB, 0x0D]).bytes_number
      = [0xAC, 0xDB, 0xFB, 0x0D].length :=
  ⟨c8_byte_count_invariant.1 0x001B 0x0009 [0x4D, 0x01] (by decide),
    c8_byte_count_invariant.2.1 0x0012 [0x0B, 0x0A, 0xC1, 0x02] (by decide),
    c8_byte_count_invariant.2.2.2.1 [0xAC, 0xDB, 0xFB, 0x0D] (by decide)⟩

/-- C10: `WriteMultipleHoldingRegistersRequest::new` derives the register
count as `values.len() as u16 / 2` (integer division, so `values.len() / 2`
whenever the length fits u16, flooring odd lengths) and the byte count as
`values.len()` truncated to u8; `WriteMultipleCoilsRequest::new`, by
contrast, stores the explicitly supplied coil count. -/
theorem c10_register_count_derivation :
    (∀ (a : Nat) (vs : List Nat), vs.length < 65536 →
      (WriteMultipleHoldingRegistersRequest.new a vs).registers_number
        = vs.length / 2) ∧
    (∀ (a : Nat) (vs : List Nat),
      (WriteMultipleHoldingRegistersRequest.new a vs).bytes_number
        = vs.length % 256) ∧
    (∀ (a c : Nat) (vs : List Nat),
      (WriteMultipleCoilsRequest.new a c vs).coils_number = c) := by
  refine ⟨?_, ?_, ?_⟩
  · intro a vs hvs
    simp [WriteMultipleHoldingRegistersRequest.new]
    omega
  · intro a vs
    simp [WriteMultipleHoldingRegistersRequest.new]
  · intro a c vs
    simp [WriteMultipleCoilsRequest.new]

/-- Witness for C10 at an odd-length payload: three bytes yield register
count 1 (floor of 3/2) and byte count 3. -/
theorem c10_register_count_derivation_witness :
    (WriteMultipleHoldingRegistersRequest.new 0x0012 [0x0B, 0x0A, 0xC1]).registers_number
      = [0x0B, 0x0A, 0xC1].length / 2 ∧
    (WriteMultipleHoldingRegistersRequest.new 0x0012 [0x0B, 0x0A, 0xC1]).bytes_number
      = [0x0B, 0x0A, 0xC1].length % 256 ∧
    (WriteMultipleCoilsRequest.new 0x001B 0x0009 [0x4D, 0x01]).coils_number = 0x0009 :=
  ⟨c10_register_count_derivation.1 0x0012 [0x0B, 0x0A, 0xC1] (by decide),
    c10_register_count_derivation.2.1 0x0012 [0x0B, 0x0A, 0xC1],
    c10_register_count_derivation.2.2 0x001B 0x0009 [0x4D, 0x01]⟩

end EasyModbus

namespace EasyModbus

theorem get_function_byte (F : Function) (e : Bool) :
    get_function (if e then Function.to_code F + 0x80 else Function.to_code F)
      = Except.ok (F, e) := by
  cases F <;> cases e <;> rfl

theorem tcp_try_from_headToBytes (h : Head) (hv : h.version = Version.Tcp) :
    Head.tcp_try_from (headToBytes h) = Except.ok h := by
  obtain ⟨tid, pid, len, uid, fn, ver, exc⟩ := h
  cases hv
  simp only [headToBytes, be16, List.cons_append, List.nil_append,
    Head.tcp_try_from, get_function_byte]
  simp only [Except.ok.injEq, Head.mk.injEq, and_true, true_and]
  omega

theorem headToBytes_tcp_length (h : Head) (hv : h.version = Version.Tcp) :
    (headToBytes h).length = 8 := by
  obtain ⟨tid, pid, len, uid, fn, ver, exc⟩ := h
  cases hv
  simp [headToBytes, be16]

theorem tcp_server_decode_exact (head : Head) (body : List Nat) (r : Request)
    (hv : head.version = Version.Tcp)
    (hL : head.length = body.length + 2)
    (hparse : get_request body head = some r) :
    TcpServerCodec.decode (headToBytes head ++ body) = (Outcome.frame r, []) := by
  have hlen8 := headToBytes_tcp_length head hv
  have htake8 : (headToBytes head ++ body).take 8 = headToBytes head := by
    rw [← hlen8, List.take_left]
  have hdrop8 : (headToBytes head ++ body).drop 8 = body := by
    rw [← hlen8, List.drop_left]
  have hlength : (headToBytes head ++ body).length = 8 + body.length := by
    simp [hlen8]
  unfold TcpServerCodec.decode
  rw [hlength, if_neg (by omega), htake8, tcp_try_from_headToBytes head hv, hdrop8]
  simp only [hL]
  rw [if_neg (by omega)]
  simp only [Nat.add_sub_cancel]
  rw [if_neg (by omega), List.take_length, hparse, List.drop_length]

theorem tcp_client_decode_exact (head : Head) (body : List Nat) (r : Response)
    (hv : head.version = Version.Tcp)
    (hL : head.length = body.length + 2)
    (hparse : get_response body head = some r) :
    TcpClientCodec.decode (headToBytes head ++ body) = (Outcome.frame r, []) := by
  have hlen8 := headToBytes_tcp_length head hv
  have htake8 : (headToBytes head ++ body).take 8 = headToBytes head := by
    rw [← hlen8, List.take_left]
  have hdrop8 : (headToBytes head ++ body).drop 8 = body := by
    rw [← hlen8, List.drop_left]
  have hlength : (headToBytes head ++ body).length = 8 + body.length := by
    simp [hlen8]
  unfold TcpClientCodec.decode
  rw [hlength, if_neg (by omega), if_neg (by omega), htake8,
    tcp_try_from_headToBytes head hv, hdrop8]
  simp only [hL]
  rw [if_neg (by omega)]
  simp only [Nat.add_sub_cancel]
  rw [if_neg (by omega), List.take_length, hparse, List.drop_length]

theorem rtu_try_from_headToBytes (h : Head) (hv : h.version = Version.Rtu) :
    Head.rtu_try_from (headToBytes h)
      = Except.ok ⟨0, 0, 0, h.uid, h.function, Version.Rtu, h.is_exception⟩ := by
  obtain ⟨tid, pid, len, uid, fn, ver, exc⟩ := h
  cases hv
  simp only [headToBytes, Head.rtu_try_from, get_function_byte]

theorem headToBytes_rtu_length (h : Head) (hv : h.version = Version.Rtu) :
    (headToBytes h).length = 2 := by
  obtain ⟨tid, pid, len, uid, fn, ver, exc⟩ := h
  cases hv
  simp [headToBytes]

theorem readBe16_be16 (x : Nat) : readBe16 (be16 x) = x := by
  simp [readBe16, be16]
  omega

theorem check_compute_self (d : List Nat) : crc.check d (crc.compute d) = true := by
  simp [crc.check]

theorem rtuServerBodyLen_congr (h1 h2 : Head) (s : List Nat)
    (hf : h1.function = h2.function) :
    rtuServerBodyLen h1 s = rtuServerBodyLen h2 s := by
  simp only [rtuServerBodyLen, hf]

theorem rtuClientBodyLen_congr (h1 h2 : Head) (s : List Nat)
    (hf : h1.function = h2.function) (he : h1.is_exception = h2.is_exception) :
    rtuClientBodyLen h1 s = rtuClientBodyLen h2 s := by
  simp only [rtuClientBodyLen, hf, he]

theorem rtu_server_decode_exact (head : Head) (body : List Nat) (r : Request)
    (hv : head.version = Version.Rtu) (ht : head.tid = 0) (hp : head.pid = 0)
    (hL : head.length = (body.length % 65536 + 2) % 65536)
    (hlen : rtuServerBodyLen head
        (body ++ be16 (crc.compute (headToBytes head ++ body))) = body.length)
    (hparse : get_request body head = some r) :
    RtuServerCodec.decode
        ((headToBytes head ++ body)
          ++ be16 (crc.compute (headToBytes head ++ body)))
      = (Outcome.frame r, []) := by
  set c := crc.compute (headToBytes head ++ body) with hc
  have hlen2 := headToBytes_rtu_length head hv
  have hassoc : (headToBytes head ++ body) ++ be16 c
      = headToBytes head ++ (body ++ be16 c) := by
    simp
  have htake2 : (headToBytes head ++ (body ++ be16 c)).take 2 = headToBytes head := by
    rw [← hlen2, List.take_left]
  have hdrop2 : (headToBytes head ++ (body ++ be16 c)).drop 2 = body ++ be16 c := by
    rw [← hlen2, List.drop_left]
  have hlength : (headToBytes head ++ (body ++ be16 c)).length
      = 2 + (body.length + 2) := by
    simp [hlen2, be16]
  have hs1len : (body ++ be16 c).length = body.length + 2 := by
    simp [be16]
  have hhead0 : (⟨0, 0, 0, head.uid, head.function, Version.Rtu,
      head.is_exception⟩ : Head).body_length body.length = head := by
    obtain ⟨tid, pid, len, uid, fn, ver, exc⟩ := head
    cases hv
    simp only at ht hp hL
    simp [Head.body_length, ht, hp, hL]
  have hlen0 : rtuServerBodyLen
      (⟨0, 0, 0, head.uid, head.function, Version.Rtu, head.is_exception⟩ : Head)
      (body ++ be16 c) = body.length :=
    (rtuServerBodyLen_congr
      ⟨0, 0, 0, head.uid, head.function, Version.Rtu, head.is_exception⟩ head
      (body ++ be16 c) rfl).trans hlen
  have htakeb : (body ++ be16 c).take body.length = body := List.take_left body _
  have hdropb : (body ++ be16 c).drop body.length = be16 c := List.drop_left body _
  have hg1 : ¬ (2 + (body.length + 2) < 2) := by omega
  have hg2 : ¬ (body.length + 2 < body.length + 2) := by omega
  unfold RtuServerCodec.decode
  rw [hassoc]
  simp only [hlength, htake2, hdrop2, rtu_try_from_headToBytes head hv, hlen0,
    hs1len, if_neg hg1, if_neg hg2, hhead0, htakeb, hdropb, hparse,
    readBe16_be16, hc, check_compute_self]
  simp [be16]

theorem rtu_client_decode_exact (head : Head) (body : List Nat) (r : Response)
    (hv : head.version = Version.Rtu) (ht : head.tid = 0) (hp : head.pid = 0)
    (hL : head.length = (body.length % 65536 + 2) % 65536)
    (hlen : rtuClientBodyLen head
        (body ++ be16 (crc.compute (headToBytes head ++ body))) = body.length)
    (hparse : get_response body head = some r) :
    RtuClientCodec.decode
        ((headToBytes head ++ body)
          ++ be16 (crc.compute (headToBytes head ++ body)))
      = (Outcome.frame r, []) := by
  set c := crc.compute (headToBytes head ++ body) with hc
  have hlen2 := headToBytes_rtu_length head hv
  have hassoc : (headToBytes head ++ body) ++ be16 c
      = headToBytes head ++ (body ++ be16 c) := by
    simp
  have htake2 : (headToBytes head ++ (body ++ be16 c)).take 2 = headToBytes head := by
    rw [← hlen2, List.take_left]
  have hdrop2 : (headToBytes head ++ (body ++ be16 c)).drop 2 = body ++ be16 c := by
    rw [← hlen2, List.drop_left]
  have hlength : (headToBytes head ++ (body ++ be16 c)).length
      = 2 + (body.length + 2) := by
    simp [hlen2, be16]
  have hs1len : (body ++ be16 c).length = body.length + 2 := by
    simp [be16]
  have hhead0 : (⟨0, 0, 0, head.uid, head.function, Version.Rtu,
      head.is_exception⟩ : Head).body_length body.length = head := by
    obtain ⟨tid, pid, len, uid, fn, ver, exc⟩ := head
    cases hv
    simp only at ht hp hL
    simp [Head.body_length, ht, hp, hL]
  have hlen0 : rtuClientBodyLen
      (⟨0, 0, 0, head.uid, head.function, Version.Rtu, head.is_exception⟩ : Head)
      (body ++ be16 c) = body.length :=
    (rtuClientBodyLen_congr
      ⟨0, 0, 0, head.uid, head.function, Version.Rtu, head.is_exception⟩ head
      (body ++ be16 c) rfl rfl).trans hlen
  have htakeb : (body ++ be16 c).take body.length = body := List.take_left body _
  have hdropb : (body ++ be16 c).drop body.length = be16 c := List.drop_left body _
  have hg1 : ¬ (2 + (body.length + 2) < 2) := by omega
  have hg2 : ¬ (body.length + 2 < body.length + 2) := by omega
  unfold RtuClientCodec.decode
  rw [hassoc]
  simp only [hlength, htake2, hdrop2, rtu_try_from_headToBytes head hv, hlen0,
    hs1len, if_neg hg1, if_neg hg2, hhead0, htakeb, hdropb, hparse,
    readBe16_be16, hc, check_compute_self]
  simp [be16]

theorem readCoilsRequest_parse (b : ReadCoilsRequest) :
    ReadCoilsRequest.fromBytes b.toBytes = some b := by
  obtain ⟨a, n⟩ := b
  simp [ReadCoilsRequest.toBytes, ReadCoilsRequest.fromBytes, be16]
  omega

theorem tcp_request_roundtrip (r : Request) (hv : r.head.version = Version.Tcp)
    (hL : r.head.length = r.bodyBytes.length + 2)
    (hparse : get_request r.bodyBytes r.head = some r) :
    TcpServerCodec.decode (TcpClientCodec.encode r) = (Outcome.frame r, []) :=
  tcp_server_decode_exact r.head r.bodyBytes r hv hL hparse

theorem tcp_response_roundtrip (r : Response) (hv : r.head.version = Version.Tcp)
    (hL : r.head.length = r.bodyBytes.length + 2)
    (hparse : get_response r.bodyBytes r.head = some r) :
    TcpClientCodec.decode (TcpServerCodec.encode r) = (Outcome.frame r, []) :=
  tcp_client_decode_exact r.head r.bodyBytes r hv hL hparse

theorem rtu_request_roundtrip (r : Request) (hv : r.head.version = Version.Rtu)
    (ht : r.head.tid = 0) (hp : r.head.pid = 0)
    (hL : r.head.length = (r.bodyBytes.length % 65536 + 2) % 65536)
    (hlen : rtuServerBodyLen r.head
        (r.bodyBytes ++ be16 (crc.compute (headToBytes r.head ++ r.bodyBytes)))
      = r.bodyBytes.length)
    (hparse : get_request r.bodyBytes r.head = some r) :
    RtuServerCodec.decode (RtuClientCodec.encode r) = (Outcome.frame r, []) :=
  rtu_server_decode_exact r.head r.bodyBytes r hv ht hp hL hlen hparse

theorem rtu_response_roundtrip (r : Response) (hv : r.head.version = Version.Rtu)
    (ht : r.head.tid = 0) (hp : r.head.pid = 0)
    (hL : r.head.length = (r.bodyBytes.length % 65536 + 2) % 65536)
    (hlen : rtuClientBodyLen r.head
        (r.bodyBytes ++ be16 (crc.compute (headToBytes r.head ++ r.bodyBytes)))
      = r.bodyBytes.length)
    (hparse : get_response r.bodyBytes r.head = some r) :
    RtuClientCodec.decode (RtuServerCodec.encode r) = (Outcome.frame r, []) :=
  rtu_client_decode_exact r.head r.bodyBytes r hv ht hp hL hlen hparse

example (m : TidMap) (uid a n : Nat) :
    TcpServerCodec.decode (TcpClientCodec.encode
        ((Frame.mk Version.Tcp m).read_coils_request uid a n).1)
      = (Outcome.frame ((Frame.mk Version.Tcp m).read_coils_request uid a n).1, []) := by
  apply tcp_request_roundtrip
  · rfl
  · rw [build_read_coils_request]
    rfl
  · rw [build_read_coils_request]
    simp [get_request, Request.head, Request.bodyBytes, Head.new,
      readCoilsRequest_parse]

example (m : TidMap) (uid a n : Nat) :
    RtuServerCodec.decode (RtuClientCodec.encode
        ((Frame.mk Version.Rtu m).read_coils_request uid a n).1)
      = (Outcome.frame ((Frame.mk Version.Rtu m).read_coils_request uid a n).1, []) := by
  apply rtu_request_roundtrip
  · rfl
  · rfl
  · rfl
  · rw [build_read_coils_request]
    rfl
  · rw [build_read_coils_request]
    simp [rtuServerBodyLen, Request.head, Request.bodyBytes, Head.new,
      ReadCoilsRequest.toBytes, be16]
  · rw [build_read_coils_request]
    simp [get_request, Request.head, Request.bodyBytes, Head.new,
      readCoilsRequest_parse]

end EasyModbus

namespace EasyModbus

theorem get?_cons0 (x0 : Nat) (l : List Nat) : (x0 :: l).get? 0 = some x0 := rfl

theorem get?_cons4 (x0 x1 x2 x3 x4 : Nat) (l : List Nat) :
    (x0 :: x1 :: x2 :: x3 :: x4 :: l).get? 4 = some x4 := rfl

theorem readDiscreteInputsRequest_parse (b : ReadDiscreteInputsRequest) :
    ReadDiscreteInputsRequest.fromBytes b.toBytes = some b := by
  obtain ⟨a, n⟩ := b
  simp [ReadDiscreteInputsRequest.toBytes, ReadDiscreteInputsRequest.fromBytes, be16]
  omega

theorem readMultipleHoldingRegistersRequest_parse (b : ReadMultipleHoldingRegistersRequest) :
    ReadMultipleHoldingRegistersRequest.fromBytes b.toBytes = some b := by
  obtain ⟨a, n⟩ := b
  simp [ReadMultipleHoldingRegistersRequest.toBytes, ReadMultipleHoldingRegistersRequest.fromBytes, be16]
  omega

theorem readInputRegistersRequest_parse (b : ReadInputRegistersRequest) :
    ReadInputRegistersRequest.fromBytes b.toBytes = some b := by
  obtain ⟨a, n⟩ := b
  simp [ReadInputRegistersRequest.toBytes, ReadInputRegistersRequest.fromBytes, be16]
  omega

theorem writeSingleCoilRequest_parse (b : WriteSingleCoilRequest) :
    WriteSingleCoilRequest.fromBytes b.toBytes = some b := by
  obtain ⟨a, n⟩ := b
  simp [WriteSingleCoilRequest.toBytes, WriteSingleCoilRequest.fromBytes, be16]
  omega

theorem writeSingleHoldingRegisterRequest_parse (b : WriteSingleHoldingRegisterRequest) :
    WriteSingleHoldingRegisterRequest.fromBytes b.toBytes = some b := by
  obtain ⟨a, n⟩ := b
  simp [WriteSingleHoldingRegisterRequest.toBytes, WriteSingleHoldingRegisterRequest.fromBytes, be16]
  omega

theorem writeMultipleCoilsRequest_parse (b : WriteMultipleCoilsRequest) :
    WriteMultipleCoilsRequest.fromBytes b.toBytes = some b := by
  obtain ⟨a, c, bn, vs⟩ := b
  simp [WriteMultipleCoilsRequest.toBytes, WriteMultipleCoilsRequest.fromBytes, be16]
  omega

theorem writeMultipleHoldingRegistersRequest_parse (b : WriteMultipleHoldingRegistersRequest) :
    WriteMultipleHoldingRegistersRequest.fromBytes b.toBytes = some b := by
  obtain ⟨a, c, bn, vs⟩ := b
  simp [WriteMultipleHoldingRegistersRequest.toBytes, WriteMultipleHoldingRegistersRequest.fromBytes, be16]
  omega

theorem readCoilsResponse_parse (b : ReadCoilsResponse) :
    ReadCoilsResponse.fromBytes b.toBytes = some b := by
  obtain ⟨bn, vs⟩ := b
  simp [ReadCoilsResponse.toBytes, ReadCoilsResponse.fromBytes]

theorem readDiscreteInputsResponse_parse (b : ReadDiscreteInputsResponse) :
    ReadDiscreteInputsResponse.fromBytes b.toBytes = some b := by
  obtain ⟨bn, vs⟩ := b
  simp [ReadDiscreteInputsResponse.toBytes, ReadDiscreteInputsResponse.fromBytes]

theorem readMultipleHoldingRegistersResponse_parse (b : ReadMultipleHoldingRegistersResponse) :
    ReadMultipleHoldingRegistersResponse.fromBytes b.toBytes = some b := by
  obtain ⟨bn, vs⟩ := b
  simp [ReadMultipleHoldingRegistersResponse.toBytes, ReadMultipleHoldingRegistersResponse.fromBytes]

theorem readInputRegistersResponse_parse (b : ReadInputRegistersResponse) :
    ReadInputRegistersResponse.fromBytes b.toBytes = some b := by
  obtain ⟨bn, vs⟩ := b
  simp [ReadInputRegistersResponse.toBytes, ReadInputRegistersResponse.fromBytes]

theorem writeSingleCoilResponse_parse (b : WriteSingleCoilResponse) :
    WriteSingleCoilResponse.fromBytes b.toBytes = some b := by
  obtain ⟨a, n⟩ := b
  simp [WriteSingleCoilResponse.toBytes, WriteSingleCoilResponse.fromBytes, be16]
  omega

theorem writeSingleHoldingRegisterResponse_parse (b : WriteSingleHoldingRegisterResponse) :
    WriteSingleHoldingRegisterResponse.fromBytes b.toBytes = some b := by
  obtain ⟨a, n⟩ := b
  simp [WriteSingleHoldingRegisterResponse.toBytes, WriteSingleHoldingRegisterResponse.fromBytes, be16]
  omega

theorem writeMultipleCoilsResponse_parse (b : WriteMultipleCoilsResponse) :
    WriteMultipleCoilsResponse.fromBytes b.toBytes = some b := by
  obtain ⟨a, n⟩ := b
  simp [WriteMultipleCoilsResponse.toBytes, WriteMultipleCoilsResponse.fromBytes, be16]
  omega

theorem writeMultipleHoldingRegistersResponse_parse (b : WriteMultipleHoldingRegistersResponse) :
    WriteMultipleHoldingRegistersResponse.fromBytes b.toBytes = some b := by
  obtain ⟨a, n⟩ := b
  simp [WriteMultipleHoldingRegistersResponse.toBytes, WriteMultipleHoldingRegistersResponse.fromBytes, be16]
  omega

end EasyModbus
namespace EasyModbus

/-- C1: for every supported function, encoding a builder-constructed Request
with the TCP client codec and decoding with the TCP server codec yields the
original request, and likewise Responses through TCP server encode / TCP
client decode, and both directions through the RTU codecs with the complete
frame (including the CRC trailer) in the buffer; variable payloads are
bounded by the one-byte count field (`values.len() < 256`). -/
theorem c1_round_trip :
    (∀ (m : TidMap) (uid a n : Nat),
      TcpServerCodec.decode (TcpClientCodec.encode ((Frame.mk Version.Tcp m).read_coils_request uid a n).1)
        = (Outcome.frame ((Frame.mk Version.Tcp m).read_coils_request uid a n).1, [])) ∧
    (∀ (m : TidMap) (uid a n : Nat),
      TcpServerCodec.decode (TcpClientCodec.encode ((Frame.mk Version.Tcp m).read_discrete_request uid a n).1)
        = (Outcome.frame ((Frame.mk Version.Tcp m).read_discrete_request uid a n).1, [])) ∧
    (∀ (m : TidMap) (uid a n : Nat),
      TcpServerCodec.decode (TcpClientCodec.encode ((Frame.mk Version.Tcp m).read_multiple_holding_registers_request uid a n).1)
        = (Outcome.frame ((Frame.mk Version.Tcp m).read_multiple_holding_registers_request uid a n).1, [])) ∧
    (∀ (m : TidMap) (uid a n : Nat),
      TcpServerCodec.decode (TcpClientCodec.encode ((Frame.mk Version.Tcp m).read_input_registers_request uid a n).1)
        = (Outcome.frame ((Frame.mk Version.Tcp m).read_input_registers_request uid a n).1, [])) ∧
    (∀ (m : TidMap) (uid a v : Nat),
      TcpServerCodec.decode (TcpClientCodec.encode ((Frame.mk Version.Tcp m).write_single_coil_request uid a v).1)
        = (Outcome.frame ((Frame.mk Version.Tcp m).write_single_coil_request uid a v).1, [])) ∧
    (∀ (m : TidMap) (uid a v : Nat),
      TcpServerCodec.decode (TcpClientCodec.encode ((Frame.mk Version.Tcp m).write_single_holding_register_request uid a v).1)
        = (Outcome.frame ((Frame.mk Version.Tcp m).write_single_holding_register_request uid a v).1, [])) ∧
    (∀ (m : TidMap) (uid a c : Nat) (vs : List Nat), vs.length < 256 →
      TcpServerCodec.decode (TcpClientCodec.encode ((Frame.mk Version.Tcp m).write_multiple_coils_request uid a c vs).1)
        = (Outcome.frame ((Frame.mk Version.Tcp m).write_multiple_coils_request uid a c vs).1, [])) ∧
    (∀ (m : TidMap) (uid a : Nat) (vs : List Nat), vs.length < 256 →
      TcpServerCodec.decode (TcpClientCodec.encode ((Frame.mk Version.Tcp m).write_multiple_holding_registers_request uid a vs).1)
        = (Outcome.frame ((Frame.mk Version.Tcp m).write_multiple_holding_registers_request uid a vs).1, [])) ∧
    (∀ (m : TidMap) (uid a n : Nat),
      RtuServerCodec.decode (RtuClientCodec.encode ((Frame.mk Version.Rtu m).read_coils_request uid a n).1)
        = (Outcome.frame ((Frame.mk Version.Rtu m).read_coils_request uid a n).1, [])) ∧
    (∀ (m : TidMap) (uid a n : Nat),
      RtuServerCodec.decode (RtuClientCodec.encode ((Frame.mk Version.Rtu m).read_discrete_request uid a n).1)
        = (Outcome.frame ((Frame.mk Version.Rtu m).read_discrete_request uid a n).1, [])) ∧
    (∀ (m : TidMap) (uid a n : Nat),
      RtuServerCodec.decode (RtuClientCodec.encode ((Frame.mk Version.Rtu m).read_multiple_holding_registers_request uid a n).1)
        = (Outcome.frame ((Frame.mk Version.Rtu m).read_multiple_holding_registers_request uid a n).1, [])) ∧
    (∀ (m : TidMap) (uid a n : Nat),
      RtuServerCodec.decode (RtuClientCodec.encode ((Frame.mk Version.Rtu m).read_input_registers_request uid a n).1)
        = (Outcome.frame ((Frame.mk Version.Rtu m).read_input_registers_request uid a n).1, [])) ∧
    (∀ (m : TidMap) (uid a v : Nat),
      RtuServerCodec.decode (RtuClientCodec.encode ((Frame.mk Version.Rtu m).write_single_coil_request uid a v).1)
        = (Outcome.frame ((Frame.mk Version.Rtu m).write_single_coil_request uid a v).1, [])) ∧
    (∀ (m : TidMap) (uid a v : Nat),
      RtuServerCodec.decode (RtuClientCodec.encode ((Frame.mk Version.Rtu m).write_single_holding_register_request uid a v).1)
        = (Outcome.frame ((Frame.mk Version.Rtu m).write_single_holding_register_request uid a v).1, [])) ∧
    (∀ (m : TidMap) (uid a c : Nat) (vs : List Nat), vs.length < 256 →
      RtuServerCodec.decode (RtuClientCodec.encode ((Frame.mk Version.Rtu m).write_multiple_coils_request uid a c vs).1)
        = (Outcome.frame ((Frame.mk Version.Rtu m).write_multiple_coils_request uid a c vs).1, [])) ∧
    (∀ (m : TidMap) (uid a : Nat) (vs : List Nat), vs.length < 256 →
      RtuServerCodec.decode (RtuClientCodec.encode ((Frame.mk Version.Rtu m).write_multiple_holding_registers_request uid a vs).1)
        = (Outcome.frame ((Frame.mk Version.Rtu m).write_multiple_holding_registers_request uid a vs).1, [])) ∧
    (∀ (m : TidMap) (uid : Nat) (vs : List Nat), vs.length < 256 →
      TcpClientCodec.decode (TcpServerCodec.encode ((Frame.mk Version.Tcp m).read_coils_response uid vs).1)
        = (Outcome.frame ((Frame.mk Version.Tcp m).read_coils_response uid vs).1, [])) ∧
    (∀ (m : TidMap) (uid : Nat) (vs : List Nat), vs.length < 256 →
      TcpClientCodec.decode (TcpServerCodec.encode ((Frame.mk Version.Tcp m).read_discrete_response uid vs).1)
        = (Outcome.frame ((Frame.mk Version.Tcp m).read_discrete_response uid vs).1, [])) ∧
    (∀ (m : TidMap) (uid : Nat) (vs : List Nat), vs.length < 256 →
      TcpClientCodec.decode (TcpServerCodec.encode ((Frame.mk Version.Tcp m).read_holding_register_response uid vs).1)
        = (Outcome.frame ((Frame.mk Version.Tcp m).read_holding_register_response uid vs).1, [])) ∧
    (∀ (m : TidMap) (uid : Nat) (vs : List Nat), vs.length < 256 →
      TcpClientCodec.decode (TcpServerCodec.encode ((Frame.mk Version.Tcp m).read_input_register_response uid vs).1)
        = (Outcome.frame ((Frame.mk Version.Tcp m).read_input_register_response uid vs).1, [])) ∧
    (∀ (m : TidMap) (uid a v : Nat),
      TcpClientCodec.decode (TcpServerCodec.encode ((Frame.mk Version.Tcp m).write_single_coil_response uid a v).1)
        = (Outcome.frame ((Frame.mk Version.Tcp m).write_single_coil_response uid a v).1, [])) ∧
    (∀ (m : TidMap) (uid a v : Nat),
      TcpClientCodec.decode (TcpServerCodec.encode ((Frame.mk Version.Tcp m).write_single_holding_register_response uid a v).1)
        = (Outcome.frame ((Frame.mk Version.Tcp m).write_single_holding_register_response uid a v).1, [])) ∧
    (∀ (m : TidMap) (uid a n : Nat),
      TcpClientCodec.decode (TcpServerCodec.encode ((Frame.mk Version.Tcp m).write_multiple_coils_response uid a n).1)
        = (Outcome.frame ((Frame.mk Version.Tcp m).write_multiple_coils_response uid a n).1, [])) ∧
    (∀ (m : TidMap) (uid a n : Nat),
      TcpClientCodec.decode (TcpServerCodec.encode ((Frame.mk Version.Tcp m).write_multiple_holding_registers_response uid a n).1)
        = (Outcome.frame ((Frame.mk Version.Tcp m).write_multiple_holding_registers_response uid a n).1, [])) ∧
    (∀ (m : TidMap) (uid : Nat) (vs : List Nat), vs.length < 256 →
      RtuClientCodec.decode (RtuServerCodec.encode ((Frame.mk Version.Rtu m).read_coils_response uid vs).1)
        = (Outcome.frame ((Frame.mk Version.Rtu m).read_coils_response uid vs).1, [])) ∧
    (∀ (m : TidMap) (uid : Nat) (vs : List Nat), vs.length < 256 →
      RtuClientCodec.decode (RtuServerCodec.encode ((Frame.mk Version.Rtu m).read_discrete_response uid vs).1)
        = (Outcome.frame ((Frame.mk Version.Rtu m).read_discrete_response uid vs).1, [])) ∧
    (∀ (m : TidMap) (uid : Nat) (vs : List Nat), vs.length < 256 →
      RtuClientCodec.decode (RtuServerCodec.encode ((Frame.mk Version.Rtu m).read_holding_register_response uid vs).1)
        = (Outcome.frame ((Frame.mk Version.Rtu m).read_holding_register_response uid vs).1, [])) ∧
    (∀ (m : TidMap) (uid : Nat) (vs : List Nat), vs.length < 256 →
      RtuClientCodec.decode (RtuServerCodec.encode ((Frame.mk Version.Rtu m).read_input_register_response uid vs).1)
        = (Outcome.frame ((Frame.mk Version.Rtu m).read_input_register_response uid vs).1, [])) ∧
    (∀ (m : TidMap) (uid a v : Nat),
      RtuClientCodec.decode (RtuServerCodec.encode ((Frame.mk Version.Rtu m).write_single_coil_response uid a v).1)
        = (Outcome.frame ((Frame.mk Version.Rtu m).write_single_coil_response uid a v).1, [])) ∧
    (∀ (m : TidMap) (uid a v : Nat),
      RtuClientCodec.decode (RtuServerCodec.encode ((Frame.mk Version.Rtu m).write_single_holding_register_response uid a v).1)
        = (Outcome.frame ((Frame.mk Version.Rtu m).write_single_holding_register_response uid a v).1, [])) ∧
    (∀ (m : TidMap) (uid a n : Nat),
      RtuClientCodec.decode (RtuServerCodec.encode ((Frame.mk Version.Rtu m).write_multiple_coils_response uid a n).1)
        = (Outcome.frame ((Frame.mk Version.Rtu m).write_multiple_coils_response uid a n).1, [])) ∧
    (∀ (m : TidMap) (uid a n : Nat),
      RtuClientCodec.decode (RtuServerCodec.encode ((Frame.mk Version.Rtu m).write_multiple_holding_registers_response uid a n).1)
        = (Outcome.frame ((Frame.mk Version.Rtu m).write_multiple_holding_registers_response uid a n).1, [])) := by
  refine ⟨?_, ?_, ?_, ?_, ?_, ?_, ?_, ?_, ?_, ?_, ?_, ?_, ?_, ?_, ?_, ?_, ?_, ?_, ?_, ?_, ?_, ?_, ?_, ?_, ?_, ?_, ?_, ?_, ?_, ?_, ?_, ?_⟩
  · intro m uid a n
    apply tcp_request_roundtrip
    · rfl
    · rw [build_read_coils_request]
      rfl
    · rw [build_read_coils_request]
      simp [get_request, Request.head, Request.bodyBytes, Head.new, readCoilsRequest_parse]
  · intro m uid a n
    apply tcp_request_roundtrip
    · rfl
    · rw [build_read_discrete_request]
      rfl
    · rw [build_read_discrete_request]
      simp [get_request, Request.head, Request.bodyBytes, Head.new, readDiscreteInputsRequest_parse]
  · intro m uid a n
    apply tcp_request_roundtrip
    · rfl
    · rw [build_read_multiple_holding_registers_request]
      rfl
    · rw [build_read_multiple_holding_registers_request]
      simp [get_request, Request.head, Request.bodyBytes, Head.new, readMultipleHoldingRegistersRequest_parse]
  · intro m uid a n
    apply tcp_request_roundtrip
    · rfl
    · rw [build_read_input_registers_request]
      rfl
    · rw [build_read_input_registers_request]
      simp [get_request, Request.head, Request.bodyBytes, Head.new, readInputRegistersRequest_parse]
  · intro m uid a v
    apply tcp_request_roundtrip
    · rfl
    · rw [build_write_single_coil_request]
      rfl
    · rw [build_write_single_coil_request]
      simp [get_request, Request.head, Request.bodyBytes, Head.new, writeSingleCoilRequest_parse]
  · intro m uid a v
    apply tcp_request_roundtrip
    · rfl
    · rw [build_write_single_holding_register_request]
      rfl
    · rw [build_write_single_holding_register_request]
      simp [get_request, Request.head, Request.bodyBytes, Head.new, writeSingleHoldingRegisterRequest_parse]
  · intro m uid a c vs h
    apply tcp_request_roundtrip
    · rfl
    · rw [build_write_multiple_coils_request]
      simp [Request.head, Request.bodyBytes, Head.new, WriteMultipleCoilsRequest.toBytes,
        WriteMultipleCoilsRequest.new, be16]
      omega
    · rw [build_write_multiple_coils_request]
      simp [get_request, Request.head, Request.bodyBytes, Head.new, writeMultipleCoilsRequest_parse]
  · intro m uid a vs h
    apply tcp_request_roundtrip
    · rfl
    · rw [build_write_multiple_holding_registers_request]
      simp [Request.head, Request.bodyBytes, Head.new, WriteMultipleHoldingRegistersRequest.toBytes,
        WriteMultipleHoldingRegistersRequest.new, be16]
      omega
    · rw [build_write_multiple_holding_registers_request]
      simp [get_request, Request.head, Request.bodyBytes, Head.new, writeMultipleHoldingRegistersRequest_parse]
  · intro m uid a n
    apply rtu_request_roundtrip
    · rfl
    · rfl
    · rfl
    · rw [build_read_coils_request]
      rfl
    · rw [build_read_coils_request]
      simp [rtuServerBodyLen, Request.head, Request.bodyBytes, Head.new,
        ReadCoilsRequest.toBytes, be16]
    · rw [build_read_coils_request]
      simp [get_request, Request.head, Request.bodyBytes, Head.new, readCoilsRequest_parse]
  · intro m uid a n
    apply rtu_request_roundtrip
    · rfl
    · rfl
    · rfl
    · rw [build_read_discrete_request]
      rfl
    · rw [build_read_discrete_request]
      simp [rtuServerBodyLen, Request.head, Request.bodyBytes, Head.new,
        ReadDiscreteInputsRequest.toBytes, be16]
    · rw [build_read_discrete_request]
      simp [get_request, Request.head, Request.bodyBytes, Head.new, readDiscreteInputsRequest_parse]
  · intro m uid a n
    apply rtu_request_roundtrip
    · rfl
    · rfl
    · rfl
    · rw [build_read_multiple_holding_registers_request]
      rfl
    · rw [build_read_multiple_holding_registers_request]
      simp [rtuServerBodyLen, Request.head, Request.bodyBytes, Head.new,
        ReadMultipleHoldingRegistersRequest.toBytes, be16]
    · rw [build_read_multiple_holding_registers_request]
      simp [get_request, Request.head, Request.bodyBytes, Head.new, readMultipleHoldingRegistersRequest_parse]
  · intro m uid a n
    apply rtu_request_roundtrip
    · rfl
    · rfl
    · rfl
    · rw [build_read_input_registers_request]
      rfl
    · rw [build_read_input_registers_request]
      simp [rtuServerBodyLen, Request.head, Request.bodyBytes, Head.new,
        ReadInputRegistersRequest.toBytes, be16]
    · rw [build_read_input_registers_request]
      simp [get_request, Request.head, Request.bodyBytes, Head.new, readInputRegistersRequest_parse]
  · intro m uid a v
    apply rtu_request_roundtrip
    · rfl
    · rfl
    · rfl
    · rw [build_write_single_coil_request]
      rfl
    · rw [build_write_single_coil_request]
      simp [rtuServerBodyLen, Request.head, Request.bodyBytes, Head.new,
        WriteSingleCoilRequest.toBytes, be16]
    · rw [build_write_single_coil_request]
      simp [get_request, Request.head, Request.bodyBytes, Head.new, writeSingleCoilRequest_parse]
  · intro m uid a v
    apply rtu_request_roundtrip
    · rfl
    · rfl
    · rfl
    · rw [build_write_single_holding_register_request]
      rfl
    · rw [build_write_single_holding_register_request]
      simp [rtuServerBodyLen, Request.head, Request.bodyBytes, Head.new,
        WriteSingleHoldingRegisterRequest.toBytes, be16]
    · rw [build_write_single_holding_register_request]
      simp [get_request, Request.head, Request.bodyBytes, Head.new, writeSingleHoldingRegisterRequest_parse]
  · intro m uid a c vs h
    apply rtu_request_roundtrip
    · rfl
    · rfl
    · rfl
    · rw [build_write_multiple_coils_request]
      simp [Request.head, Request.bodyBytes, Head.new, WriteMultipleCoilsRequest.toBytes,
        WriteMultipleCoilsRequest.new, be16]
      omega
    · rw [build_write_multiple_coils_request]
      simp [rtuServerBodyLen, Request.head, Request.bodyBytes, Head.new,
        WriteMultipleCoilsRequest.toBytes, WriteMultipleCoilsRequest.new, be16, List.cons_append,
        get?_cons4, Option.elim]
      omega
    · rw [build_write_multiple_coils_request]
      simp [get_request, Request.head, Request.bodyBytes, Head.new, writeMultipleCoilsRequest_parse]
  · intro m uid a vs h
    apply rtu_request_roundtrip
    · rfl
    · rfl
    · rfl
    · rw [build_write_multiple_holding_registers_request]
      simp [Request.head, Request.bodyBytes, Head.new, WriteMultipleHoldingRegistersRequest.toBytes,
        WriteMultipleHoldingRegistersRequest.new, be16]
      omega
    · rw [build_write_multiple_holding_registers_request]
      simp [rtuServerBodyLen, Request.head, Request.bodyBytes, Head.new,
        WriteMultipleHoldingRegistersRequest.toBytes, WriteMultipleHoldingRegistersRequest.new, be16, List.cons_append,
        get?_cons4, Option.elim]
      omega
    · rw [build_write_multiple_holding_registers_request]
      simp [get_request, Request.head, Request.bodyBytes, Head.new, writeMultipleHoldingRegistersRequest_parse]
  · intro m uid vs h
    apply tcp_response_roundtrip
    · rfl
    · rw [build_read_coils_response]
      simp [Response.head, Response.bodyBytes, Head.new, ReadCoilsResponse.toBytes,
        ReadCoilsResponse.new]
      omega
    · rw [build_read_coils_response]
      simp [get_response, Response.head, Response.bodyBytes, Head.new, readCoilsResponse_parse]
  · intro m uid vs h
    apply tcp_response_roundtrip
    · rfl
    · rw [build_read_discrete_response]
      simp [Response.head, Response.bodyBytes, Head.new, ReadDiscreteInputsResponse.toBytes,
        ReadDiscreteInputsResponse.new]
      omega
    · rw [build_read_discrete_response]
      simp [get_response, Response.head, Response.bodyBytes, Head.new, readDiscreteInputsResponse_parse]
  · intro m uid vs h
    apply tcp_response_roundtrip
    · rfl
    · rw [build_read_holding_register_response]
      simp [Response.head, Response.bodyBytes, Head.new, ReadMultipleHoldingRegistersResponse.toBytes,
        ReadMultipleHoldingRegistersResponse.new]
      omega
    · rw [build_read_holding_register_response]
      simp [get_response, Response.head, Response.bodyBytes, Head.new, readMultipleHoldingRegistersResponse_parse]
  · intro m uid vs h
    apply tcp_response_roundtrip
    · rfl
    · rw [build_read_input_register_response]
      simp [Response.head, Response.bodyBytes, Head.new, ReadInputRegistersResponse.toBytes,
        ReadInputRegistersResponse.new]
      omega
    · rw [build_read_input_register_response]
      simp [get_response, Response.head, Response.bodyBytes, Head.new, readInputRegistersResponse_parse]
  · intro m uid a v
    apply tcp_response_roundtrip
    · rfl
    · rw [build_write_single_coil_response]
      rfl
    · rw [build_write_single_coil_response]
      simp [get_response, Response.head, Response.bodyBytes, Head.new, writeSingleCoilResponse_parse]
  · intro m uid a v
    apply tcp_response_roundtrip
    · rfl
    · rw [build_write_single_holding_register_response]
      rfl
    · rw [build_write_single_holding_register_response]
      simp [get_response, Response.head, Response.bodyBytes, Head.new, writeSingleHoldingRegisterResponse_parse]
  · intro m uid a n
    apply tcp_response_roundtrip
    · rfl
    · rw [build_write_multiple_coils_response]
      rfl
    · rw [build_write_multiple_coils_response]
      simp [get_response, Response.head, Response.bodyBytes, Head.new, writeMultipleCoilsResponse_parse]
  · intro m uid a n
    apply tcp_response_roundtrip
    · rfl
    · rw [build_write_multiple_holding_registers_response]
      rfl
    · rw [build_write_multiple_holding_registers_response]
      simp [get_response, Response.head, Response.bodyBytes, Head.new, writeMultipleHoldingRegistersResponse_parse]
  · intro m uid vs h
    apply rtu_response_roundtrip
    · rfl
    · rfl
    · rfl
    · rw [build_read_coils_response]
      simp [Response.head, Response.bodyBytes, Head.new, ReadCoilsResponse.toBytes,
        ReadCoilsResponse.new]
      omega
    · rw [build_read_coils_response]
      simp [rtuClientBodyLen, Response.head, Response.bodyBytes, Head.new,
        ReadCoilsResponse.toBytes, ReadCoilsResponse.new, List.cons_append,
        get?_cons0, Option.elim]
      omega
    · rw [build_read_coils_response]
      simp [get_response, Response.head, Response.bodyBytes, Head.new, readCoilsResponse_parse]
  · intro m uid vs h
    apply rtu_response_roundtrip
    · rfl
    · rfl
    · rfl
    · rw [build_read_discrete_response]
      simp [Response.head, Response.bodyBytes, Head.new, ReadDiscreteInputsResponse.toBytes,
        ReadDiscreteInputsResponse.new]
      omega
    · rw [build_read_discrete_response]
      simp [rtuClientBodyLen, Response.head, Response.bodyBytes, Head.new,
        ReadDiscreteInputsResponse.toBytes, ReadDiscreteInputsResponse.new, List.cons_append,
        get?_cons0, Option.elim]
      omega
    · rw [build_read_discrete_response]
      simp [get_response, Response.head, Response.bodyBytes, Head.new, readDiscreteInputsResponse_parse]
  · intro m uid vs h
    apply rtu_response_roundtrip
    · rfl
    · rfl
    · rfl
    · rw [build_read_holding_register_response]
      simp [Response.head, Response.bodyBytes, Head.new, ReadMultipleHoldingRegistersResponse.toBytes,
        ReadMultipleHoldingRegistersResponse.new]
      omega
    · rw [build_read_holding_register_response]
      simp [rtuClientBodyLen, Response.head, Response.bodyBytes, Head.new,
        ReadMultipleHoldingRegistersResponse.toBytes, ReadMultipleHoldingRegistersResponse.new, List.cons_append,
        get?_cons0, Option.elim]
      omega
    · rw [build_read_holding_register_response]
      simp [get_response, Response.head, Response.bodyBytes, Head.new, readMultipleHoldingRegistersResponse_parse]
  · intro m uid vs h
    apply rtu_response_roundtrip
    · rfl
    · rfl
    · rfl
    · rw [build_read_input_register_response]
      simp [Response.head, Response.bodyBytes, Head.new, ReadInputRegistersResponse.toBytes,
        ReadInputRegistersResponse.new]
      omega
    · rw [build_read_input_register_response]
      simp [rtuClientBodyLen, Response.head, Response.bodyBytes, Head.new,
        ReadInputRegistersResponse.toBytes, ReadInputRegistersResponse.new, List.cons_append,
        get?_cons0, Option.elim]
      omega
    · rw [build_read_input_register_response]
      simp [get_response, Response.head, Response.bodyBytes, Head.new, readInputRegistersResponse_parse]
  · intro m uid a v
    apply rtu_response_roundtrip
    · rfl
    · rfl
    · rfl
    · rw [build_write_single_coil_response]
      rfl
    · rw [build_write_single_coil_response]
      simp [rtuClientBodyLen, Response.head, Response.bodyBytes, Head.new,
        WriteSingleCoilResponse.toBytes, be16]
    · rw [build_write_single_coil_response]
      simp [get_response, Response.head, Response.bodyBytes, Head.new, writeSingleCoilResponse_parse]
  · intro m uid a v
    apply rtu_response_roundtrip
    · rfl
    · rfl
    · rfl
    · rw [build_write_single_holding_register_response]
      rfl
    · rw [build_write_single_holding_register_response]
      simp [rtuClientBodyLen, Response.head, Response.bodyBytes, Head.new,
        WriteSingleHoldingRegisterResponse.toBytes, be16]
    · rw [build_write_single_holding_register_response]
      simp [get_response, Response.head, Response.bodyBytes, Head.new, writeSingleHoldingRegisterResponse_parse]
  · intro m uid a n
    apply rtu_response_roundtrip
    · rfl
    · rfl
    · rfl
    · rw [build_write_multiple_coils_response]
      rfl
    · rw [build_write_multiple_coils_response]
      simp [rtuClientBodyLen, Response.head, Response.bodyBytes, Head.new,
        WriteMultipleCoilsResponse.toBytes, be16]
    · rw [build_write_multiple_coils_response]
      simp [get_response, Response.head, Response.bodyBytes, Head.new, writeMultipleCoilsResponse_parse]
  · intro m uid a n
    apply rtu_response_roundtrip
    · rfl
    · rfl
    · rfl
    · rw [build_write_multiple_holding_registers_response]
      rfl
    · rw [build_write_multiple_holding_registers_response]
      simp [rtuClientBodyLen, Response.head, Response.bodyBytes, Head.new,
        WriteMultipleHoldingRegistersResponse.toBytes, be16]
    · rw [build_write_multiple_holding_registers_response]
      simp [get_response, Response.head, Response.bodyBytes, Head.new, writeMultipleHoldingRegistersResponse_parse]

/-- Witness for C1 at the crate's own RTU test vectors: the
write-multiple-coils request with payload `[0x4D, 0x01]` and the read-coils
response with payload `[0xCD, 0x6B, 0xB2, 0x7F]` round-trip. -/
theorem c1_round_trip_witness :
    RtuServerCodec.decode (RtuClientCodec.encode
        ((Frame.mk Version.Rtu (fun _ => none)).write_multiple_coils_request
          0x0B 0x001B 0x0009 [0x4D, 0x01]).1)
      = (Outcome.frame ((Frame.mk Version.Rtu (fun _ => none)).write_multiple_coils_request
          0x0B 0x001B 0x0009 [0x4D, 0x01]).1, []) ∧
    RtuClientCodec.decode (RtuServerCodec.encode
        ((Frame.mk Version.Rtu (fun _ => none)).read_coils_response
          0x0B [0xCD, 0x6B, 0xB2, 0x7F]).1)
      = (Outcome.frame ((Frame.mk Version.Rtu (fun _ => none)).read_coils_response
          0x0B [0xCD, 0x6B, 0xB2, 0x7F]).1, []) :=
  ⟨c1_round_trip.2.2.2.2.2.2.2.2.2.2.2.2.2.2.1 (fun _ => none) 0x0B 0x001B 0x0009 [0x4D, 0x01] (by decide),
    c1_round_trip.2.2.2.2.2.2.2.2.2.2.2.2.2.2.2.2.2.2.2.2.2.2.2.2.1 (fun _ => none) 0x0B [0xCD, 0x6B, 0xB2, 0x7F] (by decide)⟩

end EasyModbus

namespace EasyModbus

/-- C4 counterexample: the claim says any single-byte corruption of a valid
RTU frame makes the full-frame decode fail with `InvalidChecksum`.  On the
crate's own test frame `0B 01 00 1D 00 1F ED 6E` (which decodes), corrupting
the function byte 0x01 to 0x08 instead fails with the invalid-function-code
error, and enlarging the byte-count byte of a valid read-coils response
(0x04 to 0x20) makes the client decoder return need-more-input, not an
error. -/
theorem c4_checksum_rejection_counterexample :
    RtuServerCodec.decode [0x0B, 0x01, 0x00, 0x1D, 0x00, 0x1F, 0xED, 0x6E]
      = (Outcome.frame ((Frame.mk Version.Rtu (fun _ => none)).read_coils_request
          0x0B 0x001D 0x001F).1, []) ∧
    RtuServerCodec.decode [0x0B, 0x08, 0x00, 0x1D, 0x00, 0x1F, 0xED, 0x6E]
      = (Outcome.err DecodeError.invalidFunctionCode,
          [0x00, 0x1D, 0x00, 0x1F, 0xED, 0x6E]) ∧
    RtuClientCodec.decode [0x0B, 0x01, 0x20, 0xCD, 0x6B, 0xB2, 0x7F, 0x2B, 0xE1]
      = (Outcome.needMore, [0x20, 0xCD, 0x6B, 0xB2, 0x7F, 0x2B, 0xE1]) ∧
    DecodeError.invalidFunctionCode ≠ DecodeError.invalidChecksum := by
  decide

theorem rtu_server_decode_sound (src : List Nat) (r : Request) (rest : List Nat)
    (h : RtuServerCodec.decode src = (Outcome.frame r, rest)) :
    ∃ head : Head,
      Head.rtu_try_from (src.take 2) = Except.ok head ∧
      crc.check
          (src.take 2 ++ (src.drop 2).take (rtuServerBodyLen head (src.drop 2)))
          (readBe16 ((src.drop 2).drop (rtuServerBodyLen head (src.drop 2))))
        = true := by
  unfold RtuServerCodec.decode at h
  by_cases h1 : src.length < 2
  · simp only [if_pos h1] at h
    simp at h
  · simp only [if_neg h1] at h
    cases htry : Head.rtu_try_from (src.take 2) with
    | error e =>
      rw [htry] at h
      simp at h
    | ok head =>
      rw [htry] at h
      by_cases h3 : (src.drop 2).length < rtuServerBodyLen head (src.drop 2) + 2
      · simp only [if_pos h3] at h
        simp at h
      · simp only [if_neg h3] at h
        cases hreq : get_request
            ((src.drop 2).take (rtuServerBodyLen head (src.drop 2)))
            (head.body_length (rtuServerBodyLen head (src.drop 2))) with
        | none =>
          rw [hreq] at h
          simp at h
        | some req =>
          rw [hreq] at h
          by_cases h4 : crc.check
              (src.take 2 ++ (src.drop 2).take (rtuServerBodyLen head (src.drop 2)))
              (readBe16 ((src.drop 2).drop (rtuServerBodyLen head (src.drop 2))))
              = true
          · exact ⟨head, rfl, h4⟩
          · simp only [if_neg h4] at h
            simp at h

theorem rtu_server_decode_mismatch (src : List Nat) (head : Head) (r : Request)
    (h1 : ¬ src.length < 2)
    (htry : Head.rtu_try_from (src.take 2) = Except.ok head)
    (h3 : ¬ (src.drop 2).length < rtuServerBodyLen head (src.drop 2) + 2)
    (hreq : get_request ((src.drop 2).take (rtuServerBodyLen head (src.drop 2)))
        (head.body_length (rtuServerBodyLen head (src.drop 2))) = some r)
    (hcheck : crc.check
        (src.take 2 ++ (src.drop 2).take (rtuServerBodyLen head (src.drop 2)))
        (readBe16 ((src.drop 2).drop (rtuServerBodyLen head (src.drop 2))))
      = false) :
    RtuServerCodec.decode src
      = (Outcome.err DecodeError.invalidChecksum,
          ((src.drop 2).drop (rtuServerBodyLen head (src.drop 2))).drop 2) := by
  unfold RtuServerCodec.decode
  rw [if_neg h1]
  simp only [htry, if_neg h3, hreq, hcheck]
  simp

theorem rtu_client_decode_sound (src : List Nat) (r : Response) (rest : List Nat)
    (h : RtuClientCodec.decode src = (Outcome.frame r, rest)) :
    ∃ head : Head,
      Head.rtu_try_from (src.take 2) = Except.ok head ∧
      crc.check
          (src.take 2 ++ (src.drop 2).take (rtuClientBodyLen head (src.drop 2)))
          (readBe16 ((src.drop 2).drop (rtuClientBodyLen head (src.drop 2))))
        = true := by
  unfold RtuClientCodec.decode at h
  by_cases h1 : src.length < 2
  · simp only [if_pos h1] at h
    simp at h
  · simp only [if_neg h1] at h
    cases htry : Head.rtu_try_from (src.take 2) with
    | error e =>
      rw [htry] at h
      simp at h
    | ok head =>
      rw [htry] at h
      by_cases h3 : (src.drop 2).length < rtuClientBodyLen head (src.drop 2) + 2
      · simp only [if_pos h3] at h
        simp at h
      · simp only [if_neg h3] at h
        cases hresp : get_response
            ((src.drop 2).take (rtuClientBodyLen head (src.drop 2)))
            (head.body_length (rtuClientBodyLen head (src.drop 2))) with
        | none =>
          rw [hresp] at h
          simp at h
        | some resp =>
          rw [hresp] at h
          by_cases h4 : crc.check
              (src.take 2 ++ (src.drop 2).take (rtuClientBodyLen head (src.drop 2)))
              (readBe16 ((src.drop 2).drop (rtuClientBodyLen head (src.drop 2))))
              = true
          · exact ⟨head, rfl, h4⟩
          · simp only [if_neg h4] at h
            simp at h

theorem rtu_client_decode_mismatch (src : List Nat) (head : Head) (r : Response)
    (h1 : ¬ src.length < 2)
    (htry : Head.rtu_try_from (src.take 2) = Except.ok head)
    (h3 : ¬ (src.drop 2).length < rtuClientBodyLen head (src.drop 2) + 2)
    (hresp : get_response ((src.drop 2).take (rtuClientBodyLen head (src.drop 2)))
        (head.body_length (rtuClientBodyLen head (src.drop 2))) = some r)
    (hcheck : crc.check
        (src.take 2 ++ (src.drop 2).take (rtuClientBodyLen head (src.drop 2)))
        (readBe16 ((src.drop 2).drop (rtuClientBodyLen head (src.drop 2))))
      = false) :
    RtuClientCodec.decode src
      = (Outcome.err DecodeError.invalidChecksum,
          ((src.drop 2).drop (rtuClientBodyLen head (src.drop 2))).drop 2) := by
  unfold RtuClientCodec.decode
  rw [if_neg h1]
  simp only [htry, if_neg h3, hresp, hcheck]
  simp

/-- C4 amended: an RTU decoder never silently returns a frame with a wrong
CRC — whenever a decode call yields a frame, the received 2-byte trailer
equals `crc::compute` over the head and body bytes it consumed (so only a
colliding CRC could let wrong data through) — and whenever the head parses,
the full inferred frame is buffered, the body parses, and the trailer does
not match, the decode fails with exactly the `InvalidChecksum` error.  A
single-byte corruption need not surface as `InvalidChecksum`: per the
counterexample, a corrupted function byte fails with `InvalidFunctionCode`
and an enlarged byte-count byte leaves the decoder awaiting more input. -/
theorem c4_checksum_rejection_amended :
    (∀ (src : List Nat) (r : Request) (rest : List Nat),
      RtuServerCodec.decode src = (Outcome.frame r, rest) →
      ∃ head : Head,
        Head.rtu_try_from (src.take 2) = Except.ok head ∧
        crc.check
            (src.take 2 ++ (src.drop 2).take (rtuServerBodyLen head (src.drop 2)))
            (readBe16 ((src.drop 2).drop (rtuServerBodyLen head (src.drop 2))))
          = true) ∧
    (∀ (src : List Nat) (head : Head) (r : Request),
      ¬ src.length < 2 →
      Head.rtu_try_from (src.take 2) = Except.ok head →
      ¬ (src.drop 2).length < rtuServerBodyLen head (src.drop 2) + 2 →
      get_request ((src.drop 2).take (rtuServerBodyLen head (src.drop 2)))
          (head.body_length (rtuServerBodyLen head (src.drop 2))) = some r →
      crc.check
          (src.take 2 ++ (src.drop 2).take (rtuServerBodyLen head (src.drop 2)))
          (readBe16 ((src.drop 2).drop (rtuServerBodyLen head (src.drop 2))))
        = false →
      RtuServerCodec.decode src
        = (Outcome.err DecodeError.invalidChecksum,
            ((src.drop 2).drop (rtuServerBodyLen head (src.drop 2))).drop 2)) ∧
    (∀ (src : List Nat) (r : Response) (rest : List Nat),
      RtuClientCodec.decode src = (Outcome.frame r, rest) →
      ∃ head : Head,
        Head.rtu_try_from (src.take 2) = Except.ok head ∧
        crc.check
            (src.take 2 ++ (src.drop 2).take (rtuClientBodyLen head (src.drop 2)))
            (readBe16 ((src.drop 2).drop (rtuClientBodyLen head (src.drop 2))))
          = true) ∧
    (∀ (src : List Nat) (head : Head) (r : Response),
      ¬ src.length < 2 →
      Head.rtu_try_from (src.take 2) = Except.ok head →
      ¬ (src.drop 2).length < rtuClientBodyLen head (src.drop 2) + 2 →
      get_response ((src.drop 2).take (rtuClientBodyLen head (src.drop 2)))
          (head.body_length (rtuClientBodyLen head (src.drop 2))) = some r →
      crc.check
          (src.take 2 ++ (src.drop 2).take (rtuClientBodyLen head (src.drop 2)))
          (readBe16 ((src.drop 2).drop (rtuClientBodyLen head (src.drop 2))))
        = false →
      RtuClientCodec.decode src
        = (Outcome.err DecodeError.invalidChecksum,
            ((src.drop 2).drop (rtuClientBodyLen head (src.drop 2))).drop 2)) :=
  ⟨rtu_server_decode_sound, rtu_server_decode_mismatch,
    rtu_client_decode_sound, rtu_client_decode_mismatch⟩

/-- Witness for C4 amended at concrete frames: the valid test frame yields a
frame and indeed satisfies the CRC soundness conclusion, and the same frame
with its third byte corrupted (0x00 to 0x01) decodes to exactly the
invalid-checksum error. -/
theorem c4_checksum_rejection_amended_witness :
    (∃ head : Head,
      Head.rtu_try_from ([0x0B, 0x01, 0x00, 0x1D, 0x00, 0x1F, 0xED, 0x6E].take 2)
        = Except.ok head ∧
      crc.check
          ([0x0B, 0x01, 0x00, 0x1D, 0x00, 0x1F, 0xED, 0x6E].take 2 ++
            ([0x0B, 0x01, 0x00, 0x1D, 0x00, 0x1F, 0xED, 0x6E].drop 2).take
              (rtuServerBodyLen head
                ([0x0B, 0x01, 0x00, 0x1D, 0x00, 0x1F, 0xED, 0x6E].drop 2)))
          (readBe16 (([0x0B, 0x01, 0x00, 0x1D, 0x00, 0x1F, 0xED, 0x6E].drop 2).drop
            (rtuServerBodyLen head
              ([0x0B, 0x01, 0x00, 0x1D, 0x00, 0x1F, 0xED, 0x6E].drop 2))))
        = true) ∧
    RtuServerCodec.decode [0x0B, 0x01, 0x01, 0x1D, 0x00, 0x1F, 0xED, 0x6E]
      = (Outcome.err DecodeError.invalidChecksum, []) :=
  ⟨c4_checksum_rejection_amended.1 [0x0B, 0x01, 0x00, 0x1D, 0x00, 0x1F, 0xED, 0x6E]
      (Request.ReadCoils ⟨0, 0, 6, 0x0B, Function.ReadCoils, Version.Rtu, false⟩
        ⟨0x001D, 0x001F⟩) [] (by decide),
    c4_checksum_rejection_amended.2.1 [0x0B, 0x01, 0x01, 0x1D, 0x00, 0x1F, 0xED, 0x6E]
      ⟨0, 0, 0, 0x0B, Function.ReadCoils, Version.Rtu, false⟩
      (Request.ReadCoils ⟨0, 0, 6, 0x0B, Function.ReadCoils, Version.Rtu, false⟩
        ⟨0x011D, 0x001F⟩)
      (by decide) (by rfl) (by decide) (by decide) (by decide)⟩

end EasyModbus
